import Mathlib

/-
Shallow embedding of the windowing and scroll-offset engine of the
virtualized grid component in src/src/Grid.tsx.

Numbers are modelled by the rationals; array indices that may become
negative in the JavaScript code (window edges, visible indices) are
modelled by the integers.  Out-of-bounds array reads, which yield
`undefined` in JavaScript, are modelled by `Option` (`jsGet`); the
JavaScript rule that any comparison against `undefined`/`NaN` is false
is reproduced at each use site.
-/

namespace Window2

/-- JavaScript array read `l[i]` with a possibly negative index:
out of bounds gives `none` (JavaScript `undefined`). -/
def jsGet (l : List ℚ) (i : ℤ) : Option ℚ :=
  if 0 ≤ i then l.get? i.toNat else none

/-- JavaScript array read with a default value for the out-of-bounds case. -/
def jsGetD (l : List ℚ) (i : ℤ) (d : ℚ) : ℚ :=
  (jsGet l i).getD d

/-- Per-index size specification: the `rowHeight`/`colWidth` prop is either a
fixed number or a function of the index (`type ItemSize`). -/
inductive ItemSize where
  | fixed (v : ℚ)
  | perIndex (f : ℕ → ℚ)

/-- Translated from `calculateSizes` in Grid.tsx:
a fixed size is replicated `count` times, a size function is evaluated
on the indices `0 .. count-1`. -/
def calculateSizes (itemSize : ItemSize) (count : ℕ) : List ℚ :=
  match itemSize with
  | .fixed v => List.replicate count v
  | .perIndex f => (List.range count).map f

/-- Translated from `calculateOffsets` in Grid.tsx: the result starts as `[]`
for empty input and as `[0]` otherwise, and the loop body for
`i = 0 .. itemSizes.length - 2` pushes `offsets[i] + itemSizes[i]`. -/
def calculateOffsets (itemSizes : List ℚ) : List ℚ :=
  if itemSizes.length = 0 then []
  else
    (List.range (itemSizes.length - 1)).foldl
      (fun offsets i => offsets ++ [offsets.getD i 0 + itemSizes.getD i 0]) [0]

/-- JavaScript `Array.prototype.findIndex` with the predicate
`o => o >= v`: the first index whose entry is `≥ v`, and `-1` when
there is none. -/
def findIndexGE : List ℚ → ℚ → ℤ
  | [], _ => -1
  | o :: rest, v =>
      if v ≤ o then 0
      else
        let r := findIndexGE rest v
        if r = -1 then -1 else r + 1

/-- Translated from the `while (offsets[i] > v) { i -= 1 }` loops in
`setOffset`: the index is decremented while the entry at the current index
exists and strictly exceeds `v` (a JavaScript comparison against
`undefined` is false, so the loop also stops on an out-of-bounds index).
The fuel argument is always called with more fuel than possible
iterations. -/
def walkBack (l : List ℚ) (v : ℚ) : ℕ → ℤ → ℤ
  | 0, i => i
  | fuel + 1, i =>
      match jsGet l i with
      | some o => if v < o then walkBack l v fuel (i - 1) else i
      | none => i

/-- Scroll offset `{x, y}`. -/
structure Offset where
  x : ℚ
  y : ℚ
  deriving DecidableEq, Repr

/-- Measured viewport size (`windowSizeRef`), zero until first measurement. -/
structure Size2 where
  width : ℚ
  height : ℚ
  deriving DecidableEq, Repr

/-- Materialized render window (`renderWindowRef`). -/
structure RenderWindow where
  fromRow : ℤ
  toRow : ℤ
  fromCol : ℤ
  toCol : ℤ
  deriving DecidableEq, Repr

/-- Construction-time configuration of the grid relevant to the engine:
the `rows` matrix (cell values are irrelevant to the geometry, only the
shape matters), the size specs, the sticky index lists, the scroll speed
multiplier and the hysteresis batch size. -/
structure GridConfig (α : Type) where
  rows : List (List α)
  rowHeight : ItemSize
  colWidth : ItemSize
  stickyRows : List ℤ
  stickyCols : List ℤ
  scrollSpeed : ℚ
  renderBatchSize : ℤ

/-- Mutable state of the engine: the authoritative offset (`offsetRef`),
the materialized render window (`renderWindowRef`) and the measured
viewport size (`windowSizeRef`). -/
structure GridState where
  offset : Offset
  renderWindow : RenderWindow
  windowSize : Size2
  deriving DecidableEq, Repr

/-- `numRows = rows.length`. -/
def numRows {α : Type} (c : GridConfig α) : ℕ := c.rows.length

/-- `numCols = rows.reduce((max, row) => Math.max(max, row.length), 0)`. -/
def numCols {α : Type} (c : GridConfig α) : ℕ :=
  c.rows.foldl (fun m row => max m row.length) 0

/-- `rowHeights = calculateSizes(rowHeight, numRows)`. -/
def rowHeights {α : Type} (c : GridConfig α) : List ℚ :=
  calculateSizes c.rowHeight (numRows c)

/-- `colWidths = calculateSizes(colWidth, numCols)`. -/
def colWidths {α : Type} (c : GridConfig α) : List ℚ :=
  calculateSizes c.colWidth (numCols c)

/-- `rowOffsets = calculateOffsets(rowHeights)`. -/
def rowOffsets {α : Type} (c : GridConfig α) : List ℚ :=
  calculateOffsets (rowHeights c)

/-- `colOffsets = calculateOffsets(colWidths)`. -/
def colOffsets {α : Type} (c : GridConfig α) : List ℚ :=
  calculateOffsets (colWidths c)

/-- Translated from `totalSize` in Grid.tsx. -/
def totalSize {α : Type} (c : GridConfig α) : Size2 where
  width :=
    if numCols c = 0 then 0
    else (colOffsets c).getD (numCols c - 1) 0 + (colWidths c).getD (numCols c - 1) 0
  height :=
    if numRows c = 0 then 0
    else (rowOffsets c).getD (numRows c - 1) 0 + (rowHeights c).getD (numRows c - 1) 0

/-- Translated from `maxOffset` in Grid.tsx:
`{x: totalSize.width - windowSize.width, y: totalSize.height - windowSize.height}`. -/
def maxOffset {α : Type} (c : GridConfig α) (ws : Size2) : Offset where
  x := (totalSize c).width - ws.width
  y := (totalSize c).height - ws.height

/-- `sortedStickyRows = [...stickyRows].sort((a, b) => a - b)`. -/
def sortedStickyRows {α : Type} (c : GridConfig α) : List ℤ :=
  c.stickyRows.insertionSort (· ≤ ·)

/-- `sortedStickyCols = [...stickyCols].sort((a, b) => a - b)`. -/
def sortedStickyCols {α : Type} (c : GridConfig α) : List ℤ :=
  c.stickyCols.insertionSort (· ≤ ·)

/-- `stickyRowOffsets = calculateOffsets(sortedStickyRows.map(r => rowHeights[r]))`.
An out-of-range sticky index (undefined behaviour per the spec) reads
size 0 instead of the JavaScript `undefined`. -/
def stickyRowOffsets {α : Type} (c : GridConfig α) : List ℚ :=
  calculateOffsets ((sortedStickyRows c).map (fun r => jsGetD (rowHeights c) r 0))

/-- `stickyColOffsets = calculateOffsets(sortedStickyCols.map(c => colWidths[c]))`. -/
def stickyColOffsets {α : Type} (c : GridConfig α) : List ℚ :=
  calculateOffsets ((sortedStickyCols c).map (fun j => jsGetD (colWidths c) j 0))

/-- JavaScript `arr.filter((x, i) => p i x)`: filter with the element index
passed to the callback. -/
def filterIdx (p : ℕ → ℤ → Bool) : ℕ → List ℤ → List ℤ
  | _, [] => []
  | i, r :: rest => if p i r then r :: filterIdx p (i + 1) rest else filterIdx p (i + 1) rest

/-- Condition of the `stuckRows` filter in `setOffset`:
`rowOffsets[r] - stickyRowOffsets[i] < offset.y`, where a comparison on an
out-of-bounds read (JavaScript `NaN`) is false. -/
def stuckRowCond {α : Type} (c : GridConfig α) (y : ℚ) (i : ℕ) (r : ℤ) : Bool :=
  match jsGet (rowOffsets c) r, jsGet (stickyRowOffsets c) (i : ℤ) with
  | some a, some b => decide (a - b < y)
  | _, _ => false

/-- Condition of the `stuckCols` filter in `setOffset`. -/
def stuckColCond {α : Type} (c : GridConfig α) (x : ℚ) (i : ℕ) (j : ℤ) : Bool :=
  match jsGet (colOffsets c) j, jsGet (stickyColOffsets c) (i : ℤ) with
  | some a, some b => decide (a - b < x)
  | _, _ => false

/-- Translated from the `stuckRows` computation in `setOffset`:
`sortedStickyRows.filter((r, i) => rowOffsets[r] - stickyRowOffsets[i] < offset.y)`. -/
def stuckRows {α : Type} (c : GridConfig α) (y : ℚ) : List ℤ :=
  filterIdx (stuckRowCond c y) 0 (sortedStickyRows c)

/-- Translated from the `stuckCols` computation in `setOffset`. -/
def stuckCols {α : Type} (c : GridConfig α) (x : ℚ) : List ℤ :=
  filterIdx (stuckColCond c x) 0 (sortedStickyCols c)

/-- Translated from the `visibleFrom` computation in `setOffset`:
`findIndex(o => o >= v)` followed by the backwards walk
`while (offsets[i] > v) i -= 1`. -/
def visibleFromList (l : List ℚ) (v : ℚ) : ℤ :=
  walkBack l v (l.length + 1) (findIndexGE l v)

/-- Translated from the `visibleTo` computation in `setOffset`:
`count` when the viewport extent is 0, otherwise
`findIndex(o => o >= v + extent)`, with a `-1` result replaced by `count`. -/
def visibleToList (l : List ℚ) (count : ℤ) (extent : ℚ) (v : ℚ) : ℤ :=
  if extent = 0 then count
  else
    let r := findIndexGE l (v + extent)
    if r = -1 then count else r

/-- `visibleFrom.row` for a given offset `y`. -/
def visibleFromRow {α : Type} (c : GridConfig α) (y : ℚ) : ℤ :=
  visibleFromList (rowOffsets c) y

/-- `visibleFrom.col` for a given offset `x`. -/
def visibleFromCol {α : Type} (c : GridConfig α) (x : ℚ) : ℤ :=
  visibleFromList (colOffsets c) x

/-- `visibleTo.row` for a given viewport and offset `y`. -/
def visibleToRow {α : Type} (c : GridConfig α) (ws : Size2) (y : ℚ) : ℤ :=
  visibleToList (rowOffsets c) (numRows c) ws.height y

/-- `visibleTo.col` for a given viewport and offset `x`. -/
def visibleToCol {α : Type} (c : GridConfig α) (ws : Size2) (x : ℚ) : ℤ :=
  visibleToList (colOffsets c) (numCols c) ws.width x

/-- Translated from the window-update part of `setOffset` in Grid.tsx:
the four sequential `if` statements (backward expansion and forward
expansion, rows and columns independent, each later test seeing the
assignments of the earlier ones) followed by the clamps
`fromRow = max(fromRow, 0)`, `toRow = min(toRow, rowOffsets.length)`
and their column analogues. -/
def resolveWindow {α : Type} (c : GridConfig α) (ws : Size2) (off : Offset)
    (w : RenderWindow) : RenderWindow :=
  let vfRow := visibleFromRow c off.y
  let vfCol := visibleFromCol c off.x
  let vtRow := visibleToRow c ws off.y
  let vtCol := visibleToCol c ws off.x
  let pr := if vfRow < w.fromRow then (vfRow - c.renderBatchSize, vtRow) else (w.fromRow, w.toRow)
  let pc := if vfCol < w.fromCol then (vfCol - c.renderBatchSize, vtCol) else (w.fromCol, w.toCol)
  let qr := if vtRow > pr.2 then (vfRow, vtRow + c.renderBatchSize) else pr
  let qc := if vtCol > pc.2 then (vfCol, vtCol + c.renderBatchSize) else pc
  { fromRow := max qr.1 0
    toRow := min qr.2 ((rowOffsets c).length : ℤ)
    fromCol := max qc.1 0
    toCol := min qc.2 ((colOffsets c).length : ℤ) }

/-- Invariant claimed for the materialized render window:
`0 ≤ fromRow ≤ toRow ≤ numRows` and `0 ≤ fromCol ≤ toCol ≤ numCols`. -/
def windowInvariant {α : Type} (c : GridConfig α) (w : RenderWindow) : Prop :=
  0 ≤ w.fromRow ∧ w.fromRow ≤ w.toRow ∧ w.toRow ≤ (numRows c : ℤ) ∧
  0 ≤ w.fromCol ∧ w.fromCol ≤ w.toCol ∧ w.toCol ≤ (numCols c : ℤ)

instance {α : Type} (c : GridConfig α) (w : RenderWindow) :
    Decidable (windowInvariant c w) := by
  unfold windowInvariant; infer_instance

/-- Translated from `setOffset` in Grid.tsx, with the three container
elements assumed mounted (non-null) and the coalesced animation-frame
callback applied immediately: when `force` is set or the offset differs
from the authoritative one, the offset is stored and the render window
re-resolved, and the call reports `true`; otherwise the state is
untouched and the call reports `false`. -/
def setOffset {α : Type} (c : GridConfig α) (s : GridState) (off : Offset)
    (force : Bool) : GridState × Bool :=
  if force = true ∨ s.offset.x ≠ off.x ∨ s.offset.y ≠ off.y then
    ({ s with
        offset := off
        renderWindow := resolveWindow c s.windowSize off s.renderWindow }, true)
  else (s, false)

/-- Translated from `scroll` in Grid.tsx: no-op when the grid fits inside
the viewport on both axes; otherwise the delta of an axis whose measured
viewport size is 0 is replaced by 0, the candidate offset is the current
offset plus delta times scroll speed clamped by
`min(maxOffset, max(0, ·))` on each axis, and the candidate is handed to
`setOffset`.  The boolean is the result of the inner `setOffset` call
(`false` on the early return). -/
def scroll {α : Type} (c : GridConfig α) (s : GridState) (deltaX deltaY : ℚ) :
    GridState × Bool :=
  if (totalSize c).width ≤ s.windowSize.width ∧ (totalSize c).height ≤ s.windowSize.height then
    (s, false)
  else
    let effectiveDeltaX := if s.windowSize.width = 0 then 0 else deltaX
    let effectiveDeltaY := if s.windowSize.height = 0 then 0 else deltaY
    let off : Offset :=
      { x := min (maxOffset c s.windowSize).x (max 0 (s.offset.x + effectiveDeltaX * c.scrollSpeed))
        y := min (maxOffset c s.windowSize).y (max 0 (s.offset.y + effectiveDeltaY * c.scrollSpeed)) }
    setOffset c s off false

/-- Iterated `scroll` calls (a sequence of wheel/touch deltas). -/
def scrollMany {α : Type} (c : GridConfig α) (s : GridState) (ds : List (ℚ × ℚ)) : GridState :=
  ds.foldl (fun s d => (scroll c s d.1 d.2).1) s

/-- Engine state at mount time: offset seeded from `initOffset`, render
window `{0,0,0,0}`, viewport as measured (zero before measurement). -/
def initState (off : Offset) (ws : Size2) : GridState where
  offset := off
  renderWindow := { fromRow := 0, toRow := 0, fromCol := 0, toCol := 0 }
  windowSize := ws

/-- Translated from the frame callback of `setOffset`:
`translateY = -offset.y + (rowOffsets[fromRow] || 0)`. -/
def translateY {α : Type} (c : GridConfig α) (off : Offset) (w : RenderWindow) : ℚ :=
  -off.y + jsGetD (rowOffsets c) w.fromRow 0

/-- Translated from the frame callback of `setOffset`:
`translateX = -offset.x + (colOffsets[fromCol] || 0)`. -/
def translateX {α : Type} (c : GridConfig α) (off : Offset) (w : RenderWindow) : ℚ :=
  -off.x + jsGetD (colOffsets c) w.fromCol 0

/-- In-flight touch gesture state (`touchInfoRef`); the decay interval
handle is not part of the numeric model. -/
structure TouchInfo where
  t : ℚ
  x : ℚ
  dx : ℚ
  y : ℚ
  dy : ℚ
  deriving DecidableEq, Repr

/-- Translated from `onTouchStart`: gesture state reset to the touch point. -/
def touchStart (t x y : ℚ) : TouchInfo :=
  { t := t, x := x, dx := 0, y := y, dy := 0 }

/-- Translated from `onTouchMove`: the displacement since the previous
point is computed, fed to `scroll` (returned here as the second
component) and stored. -/
def touchMove (info : TouchInfo) (t x y : ℚ) : TouchInfo × (ℚ × ℚ) :=
  let dx := info.x - x
  let dy := info.y - y
  ({ t := t, x := x, dx := dx, y := y, dy := dy }, (dx, dy))

/-- Translated from `onTouchEnd`: the release speed on each axis is the
last displacement divided by the time elapsed since the previous point. -/
def touchEndSpeed (info : TouchInfo) (t : ℚ) : ℚ × ℚ :=
  (info.dx / (t - info.t), info.dy / (t - info.t))

/-- Translated from the `setInterval` decay loop of `onTouchEnd`: each
tick applies `(speedX*16, speedY*16)` as a scroll delta, then multiplies
both speeds by `0.95`, and the loop stops once
`|speedX| + |speedY| < 0.01`.  The returned list is the sequence of
applied deltas; the fuel argument bounds the number of ticks and is
irrelevant once it exceeds the tick count at which the loop stops. -/
def decayTicks : ℕ → ℚ → ℚ → List (ℚ × ℚ)
  | 0, _, _ => []
  | fuel + 1, speedX, speedY =>
      let dx := speedX * 16
      let dy := speedY * 16
      let speedX2 := speedX * (95 / 100)
      let speedY2 := speedY * (95 / 100)
      if |speedX2| + |speedY2| < 1 / 100 then [(dx, dy)]
      else (dx, dy) :: decayTicks fuel speedX2 speedY2

/-- Per-axis hysteresis rule as amended: backward expansion when
`visibleFrom < from`, otherwise forward expansion when `visibleTo > to`
(the forward test sees the `to` updated by the backward rule, so it never
fires when the backward rule did), otherwise unchanged; the axis is
clamped to `[0, count]` at the end.  This definition follows the spec's
words and is compared against the code's `resolveWindow`. -/
def hysteresisAxis (count batch vf vt f t : ℤ) : ℤ × ℤ :=
  let p :=
    if vf < f then (vf - batch, vt)
    else if vt > t then (vf, vt + batch)
    else (f, t)
  (max p.1 0, min p.2 count)

/-- Whole-window form of `hysteresisAxis`, rows and columns independent. -/
def hysteresisWindow {α : Type} (c : GridConfig α) (ws : Size2) (off : Offset)
    (w : RenderWindow) : RenderWindow :=
  let r := hysteresisAxis (numRows c) c.renderBatchSize (visibleFromRow c off.y)
    (visibleToRow c ws off.y) w.fromRow w.toRow
  let q := hysteresisAxis (numCols c) c.renderBatchSize (visibleFromCol c off.x)
    (visibleToCol c ws off.x) w.fromCol w.toCol
  { fromRow := r.1, toRow := r.2, fromCol := q.1, toCol := q.2 }

/-- Literal reading of claim C3's forward rule, conditions evaluated on the
window as it was at the start of resolution: when `visibleTo > toRow`, the
new window on that axis is claimed to be `(visibleFrom, visibleTo + batch)`
clamped to `[0, count]`. -/
def claimedForwardAxis (count batch vf vt : ℤ) : ℤ × ℤ :=
  (max vf 0, min (vt + batch) count)

/-- Rectangular `rows` matrix of the given shape with opaque cells. -/
def mkRows (r k : ℕ) : List (List Unit) :=
  List.replicate r (List.replicate k ())

/-- Grid with two 40px rows and one 80px column: total size 80 by 80, so a
100 by 50 viewport fits the content horizontally but not vertically. -/
def cfgTall : GridConfig Unit where
  rows := mkRows 2 1
  rowHeight := .fixed 40
  colWidth := .fixed 80
  stickyRows := []
  stickyCols := []
  scrollSpeed := 1
  renderBatchSize := 5

/-- Grid with thirty 40px rows and one 80px column. -/
def cfgThirty : GridConfig Unit where
  rows := mkRows 30 1
  rowHeight := .fixed 40
  colWidth := .fixed 80
  stickyRows := []
  stickyCols := []
  scrollSpeed := 1
  renderBatchSize := 5

/-- Grid with one 80px row and ten 80px columns: a 100 by 100 viewport fits
the content vertically but not horizontally. -/
def cfgWide : GridConfig Unit where
  rows := mkRows 1 10
  rowHeight := .fixed 80
  colWidth := .fixed 80
  stickyRows := []
  stickyCols := []
  scrollSpeed := 1
  renderBatchSize := 5

/-- Grid with two 40px rows whose first row is sticky. -/
def cfgSticky : GridConfig Unit where
  rows := mkRows 2 1
  rowHeight := .fixed 40
  colWidth := .fixed 80
  stickyRows := [0]
  stickyCols := []
  scrollSpeed := 1
  renderBatchSize := 5

/-- Grid with four 40px rows, sticky rows given unsorted as `[3, 1]`
(the spec's sticky stacking example) and one sticky column of width 30. -/
def cfgStickyPair : GridConfig Unit where
  rows := mkRows 4 1
  rowHeight := .fixed 40
  colWidth := .fixed 30
  stickyRows := [3, 1]
  stickyCols := [0]
  scrollSpeed := 1
  renderBatchSize := 5

/-- Grid with an empty `rows` matrix. -/
def cfgEmpty : GridConfig Unit where
  rows := []
  rowHeight := .fixed 40
  colWidth := .fixed 80
  stickyRows := []
  stickyCols := []
  scrollSpeed := 1
  renderBatchSize := 5

/-- Grid with three 40px rows and three 80px columns. -/
def cfgSquare : GridConfig Unit where
  rows := mkRows 3 3
  rowHeight := .fixed 40
  colWidth := .fixed 80
  stickyRows := []
  stickyCols := []
  scrollSpeed := 1
  renderBatchSize := 5

end Window2

namespace Window2

/-! Characterization of the offset tables. -/

theorem calculateOffsets_loop (l : List ℚ) :
    ∀ k, k + 1 ≤ l.length →
      (List.range k).foldl (fun offsets i => offsets ++ [offsets.getD i 0 + l.getD i 0]) [0]
        = (List.range (k + 1)).map (fun i => (l.take i).sum) := by
  intro k
  induction k with
  | zero =>
      intro _
      rw [List.range_succ]
      simp
  | succ k ih =>
      intro hk
      have hk1 : k + 1 ≤ l.length := Nat.le_of_succ_le hk
      have hkl : k < l.length := Nat.lt_of_succ_le hk1
      rw [List.range_succ, List.foldl_append, ih hk1]
      rw [List.range_succ (n := k + 1), List.map_append]
      have hlen : ((List.range (k + 1)).map (fun i => (l.take i).sum)).length = k + 1 := by
        simp
      have hget : ((List.range (k + 1)).map (fun i => (l.take i).sum)).getD k 0
          = (l.take k).sum := by
        rw [List.getD_eq_getElem?_getD, List.getElem?_map, List.getElem?_range (by omega)]
        rfl
      have hgl : l.getD k 0 = l.get ⟨k, hkl⟩ := List.getD_eq_get l 0 hkl
      simp only [List.foldl_cons, List.foldl_nil, hget, hgl]
      have : l.take (k + 1) = l.take k ++ [l.get ⟨k, hkl⟩] := by
        rw [List.take_succ]
        simp [List.getElem?_eq_getElem hkl, List.get_eq_getElem]
      rw [List.map_cons, List.map_nil, this, List.sum_append]
      simp

theorem calculateOffsets_eq (l : List ℚ) :
    calculateOffsets l = (List.range l.length).map (fun i => (l.take i).sum) := by
  unfold calculateOffsets
  rcases Nat.eq_zero_or_pos l.length with h | h
  · simp [h]
  · rw [if_neg (by omega)]
    have h1 := calculateOffsets_loop l (l.length - 1) (by omega)
    have h2 : l.length - 1 + 1 = l.length := by omega
    rw [h1, h2]

theorem calculateOffsets_length (l : List ℚ) :
    (calculateOffsets l).length = l.length := by
  rw [calculateOffsets_eq]; simp

theorem calculateOffsets_get? (l : List ℚ) (i : ℕ) :
    (calculateOffsets l).get? i
      = if i < l.length then some ((l.take i).sum) else none := by
  rw [calculateOffsets_eq]
  rcases Nat.lt_or_ge i l.length with h | h
  · rw [if_pos h, List.get?_eq_getElem?, List.getElem?_map, List.getElem?_range h]
    rfl
  · rw [if_neg (by omega), List.get?_eq_getElem?, List.getElem?_map,
      List.getElem?_eq_none (by simpa using h)]
    rfl

theorem take_sum_mono (l : List ℚ) (h : ∀ x ∈ l, 0 ≤ x) {i j : ℕ} (hij : i ≤ j) :
    (l.take i).sum ≤ (l.take j).sum := by
  have hj : j = i + (j - i) := by omega
  rw [hj, List.take_add, List.sum_append]
  have : 0 ≤ ((l.drop i).take (j - i)).sum := by
    refine List.sum_nonneg ?_
    intro x hx
    exact h x (List.drop_subset i l (List.take_subset _ _ hx))
  linarith

theorem calculateOffsets_mono (l : List ℚ) (h : ∀ x ∈ l, 0 ≤ x) {i j : ℕ} {a b : ℚ}
    (hij : i ≤ j) (ha : (calculateOffsets l).get? i = some a)
    (hb : (calculateOffsets l).get? j = some b) : a ≤ b := by
  rw [calculateOffsets_get?] at ha hb
  rcases Nat.lt_or_ge i l.length with hi | hi
  · rcases Nat.lt_or_ge j l.length with hj | hj
    · rw [if_pos hi] at ha
      rw [if_pos hj] at hb
      cases ha; cases hb
      exact take_sum_mono l h hij
    · rw [if_neg (by omega)] at hb; cases hb
  · rw [if_neg (by omega)] at ha; cases ha

/-! Lemmas about the JavaScript-style array reads and index searches. -/

theorem jsGet_eq_some {l : List ℚ} {i : ℤ} (h0 : 0 ≤ i) (hl : i < (l.length : ℤ)) :
    ∃ o, jsGet l i = some o := by
  unfold jsGet
  rw [if_pos h0]
  have : i.toNat < l.length := by omega
  exact ⟨l.get ⟨i.toNat, this⟩, List.get?_eq_get this⟩

theorem jsGet_neg {l : List ℚ} {i : ℤ} (h : i < 0) : jsGet l i = none := by
  unfold jsGet
  rw [if_neg (by omega)]

theorem findIndexGE_ge (l : List ℚ) (v : ℚ) : -1 ≤ findIndexGE l v := by
  induction l with
  | nil => simp [findIndexGE]
  | cons o rest ih =>
      unfold findIndexGE
      dsimp only
      split
      · omega
      · split <;> omega

theorem findIndexGE_le (l : List ℚ) (v : ℚ) : findIndexGE l v ≤ (l.length : ℤ) - 1 := by
  induction l with
  | nil => simp [findIndexGE]
  | cons o rest ih =>
      unfold findIndexGE
      dsimp only
      simp only [List.length_cons]
      split
      · omega
      · split <;> omega

theorem findIndexGE_get (l : List ℚ) (v : ℚ) (h : 0 ≤ findIndexGE l v) :
    ∃ o, l.get? (findIndexGE l v).toNat = some o ∧ v ≤ o := by
  induction l with
  | nil => simp [findIndexGE] at h
  | cons a rest ih =>
      by_cases hva : v ≤ a
      · refine ⟨a, ?_, hva⟩
        simp [findIndexGE, hva]
      · have hrw : findIndexGE (a :: rest) v
            = if findIndexGE rest v = -1 then -1 else findIndexGE rest v + 1 := by
          simp [findIndexGE, hva]
        by_cases hr : findIndexGE rest v = -1
        · rw [hrw, if_pos hr] at h
          omega
        · rw [hrw, if_neg hr] at h ⊢
          have hr0 : 0 ≤ findIndexGE rest v := by
            have := findIndexGE_ge rest v
            omega
          obtain ⟨o, ho, hvo⟩ := ih hr0
          refine ⟨o, ?_, hvo⟩
          have : (findIndexGE rest v + 1).toNat = (findIndexGE rest v).toNat + 1 := by omega
          rw [this]
          simpa using ho

theorem walkBack_le (l : List ℚ) (v : ℚ) :
    ∀ (fuel : ℕ) (i : ℤ), walkBack l v fuel i ≤ i := by
  intro fuel
  induction fuel with
  | zero => intro i; simp [walkBack]
  | succ fuel ih =>
      intro i
      unfold walkBack
      split
      · split
        · have := ih (i - 1)
          omega
        · omega
      · omega

theorem walkBack_stops (l : List ℚ) (v : ℚ) :
    ∀ (fuel : ℕ) (i : ℤ), i < (fuel : ℤ) →
      jsGet l (walkBack l v fuel i) = none ∨
      ∃ o, jsGet l (walkBack l v fuel i) = some o ∧ o ≤ v := by
  intro fuel
  induction fuel with
  | zero =>
      intro i hi
      left
      simp only [walkBack]
      exact jsGet_neg (by exact_mod_cast hi)
  | succ fuel ih =>
      intro i hi
      unfold walkBack
      split
      next o hsome =>
        split
        next => exact ih (i - 1) (by push_cast at hi ⊢; omega)
        next hnlt =>
          right
          exact ⟨o, hsome, le_of_not_lt hnlt⟩
      next hnone =>
        left
        exact hnone

/-! Bounds on the visible index range. -/

theorem visibleFromList_le (l : List ℚ) (v : ℚ) :
    visibleFromList l v ≤ (l.length : ℤ) - 1 :=
  le_trans (walkBack_le l v (l.length + 1) (findIndexGE l v)) (findIndexGE_le l v)

theorem visibleFromList_get (l : List ℚ) (v : ℚ) (h : 0 ≤ visibleFromList l v) :
    ∃ o, l.get? (visibleFromList l v).toNat = some o ∧ o ≤ v := by
  have hle := visibleFromList_le l v
  have hstart : findIndexGE l v < ((l.length + 1 : ℕ) : ℤ) := by
    have := findIndexGE_le l v
    push_cast
    omega
  have hstop := walkBack_stops l v (l.length + 1) (findIndexGE l v) hstart
  rcases hstop with hnone | ⟨o, ho, hov⟩
  · exfalso
    unfold visibleFromList at h hle
    unfold jsGet at hnone
    rw [if_pos h] at hnone
    have : (walkBack l v (l.length + 1) (findIndexGE l v)).toNat < l.length := by omega
    rw [List.get?_eq_get this] at hnone
    cases hnone
  · refine ⟨o, ?_, hov⟩
    unfold visibleFromList at h ⊢
    unfold jsGet at ho
    rw [if_pos h] at ho
    exact ho

theorem visibleToList_nonneg (l : List ℚ) (count : ℤ) (extent v : ℚ) (hc : 0 ≤ count) :
    0 ≤ visibleToList l count extent v := by
  unfold visibleToList
  split
  · exact hc
  · dsimp only
    split
    · exact hc
    · have := findIndexGE_ge l (v + extent)
      omega

theorem visibleToList_le (l : List ℚ) (count : ℤ) (extent v : ℚ)
    (hc : (l.length : ℤ) ≤ count) : visibleToList l count extent v ≤ count := by
  unfold visibleToList
  split
  · omega
  · dsimp only
    split
    · omega
    · have := findIndexGE_le l (v + extent)
      omega

theorem visibleFromList_le_visibleToList (l : List ℚ) (count : ℤ) (extent v : ℚ)
    (hc : count = (l.length : ℤ)) (hext : 0 ≤ extent)
    (hmono : ∀ ⦃i j : ℕ⦄ ⦃a b : ℚ⦄, i ≤ j → l.get? i = some a → l.get? j = some b → a ≤ b) :
    visibleFromList l v ≤ visibleToList l count extent v := by
  have hvf := visibleFromList_le l v
  unfold visibleToList
  split
  · omega
  next hne =>
    dsimp only
    split
    · omega
    next hr =>
      set r := findIndexGE l (v + extent) with hrdef
      have hr0 : 0 ≤ r := by
        have := findIndexGE_ge l (v + extent)
        omega
      by_contra hlt
      push_neg at hlt
      have hvf0 : 0 ≤ visibleFromList l v := by omega
      obtain ⟨o1, ho1, ho1v⟩ := visibleFromList_get l v hvf0
      obtain ⟨o2, ho2, ho2v⟩ := findIndexGE_get l (v + extent) hr0
      have hij : r.toNat ≤ (visibleFromList l v).toNat := by omega
      have := hmono hij ho2 ho1
      have hext0 : 0 < extent := lt_of_le_of_ne hext (Ne.symm hne)
      linarith

/-! The sequential window update of the source equals the amended
hysteresis rule. -/

theorem seqAxis_eq (count batch vf vt f t : ℤ) :
    (let p := if vf < f then (vf - batch, vt) else (f, t)
     let q := if vt > p.2 then (vf, vt + batch) else p
     ((max q.1 0, min q.2 count) : ℤ × ℤ)) = hysteresisAxis count batch vf vt f t := by
  unfold hysteresisAxis
  by_cases h1 : vf < f
  · simp only [if_pos h1]
    have : ¬ vt > vt := lt_irrefl vt
    simp [this]
  · by_cases h2 : vt > t <;> simp [h1, h2]

theorem resolveWindow_eq_hysteresisWindow {α : Type} (c : GridConfig α) (ws : Size2)
    (off : Offset) (w : RenderWindow) :
    resolveWindow c ws off w = hysteresisWindow c ws off w := by
  have hr : ((rowOffsets c).length : ℤ) = (numRows c : ℤ) := by
    unfold rowOffsets
    rw [calculateOffsets_length]
    unfold rowHeights calculateSizes
    cases c.rowHeight <;> simp
  have hc : ((colOffsets c).length : ℤ) = (numCols c : ℤ) := by
    unfold colOffsets
    rw [calculateOffsets_length]
    unfold colWidths calculateSizes
    cases c.colWidth <;> simp
  unfold resolveWindow hysteresisWindow
  rw [hr, hc, ← seqAxis_eq, ← seqAxis_eq]

theorem rowOffsets_length {α : Type} (c : GridConfig α) :
    (rowOffsets c).length = numRows c := by
  unfold rowOffsets
  rw [calculateOffsets_length]
  unfold rowHeights calculateSizes
  cases c.rowHeight <;> simp

theorem colOffsets_length {α : Type} (c : GridConfig α) :
    (colOffsets c).length = numCols c := by
  unfold colOffsets
  rw [calculateOffsets_length]
  unfold colWidths calculateSizes
  cases c.colWidth <;> simp

theorem hysteresisAxis_invariant (count batch vf vt f t : ℤ) (hb : 0 ≤ batch)
    (hvfvt : vf ≤ vt) (hvfc : vf < count) (hvt0 : 0 ≤ vt) (hvtc : vt ≤ count)
    (hf0 : 0 ≤ f) (hft : f ≤ t) (htc : t ≤ count) :
    0 ≤ (hysteresisAxis count batch vf vt f t).1 ∧
    (hysteresisAxis count batch vf vt f t).1 ≤ (hysteresisAxis count batch vf vt f t).2 ∧
    (hysteresisAxis count batch vf vt f t).2 ≤ count := by
  unfold hysteresisAxis
  split
  · dsimp only
    omega
  · split <;> dsimp only <;> omega

theorem hysteresisAxis_subset (count batch vf vt f t r : ℤ) (hb : 0 ≤ batch)
    (hr0 : 0 ≤ r) (hrc : r < count) (hrvf : vf ≤ r) (hrvt : r < vt) :
    (hysteresisAxis count batch vf vt f t).1 ≤ r ∧
    r < (hysteresisAxis count batch vf vt f t).2 := by
  unfold hysteresisAxis
  split
  · dsimp only
    omega
  · split <;> dsimp only <;> omega

theorem rowOffsets_mono {α : Type} (c : GridConfig α)
    (h : ∀ s ∈ rowHeights c, 0 ≤ s) :
    ∀ ⦃i j : ℕ⦄ ⦃a b : ℚ⦄, i ≤ j → (rowOffsets c).get? i = some a →
      (rowOffsets c).get? j = some b → a ≤ b := by
  intro i j a b hij ha hb
  exact calculateOffsets_mono (rowHeights c) h hij ha hb

theorem colOffsets_mono {α : Type} (c : GridConfig α)
    (h : ∀ s ∈ colWidths c, 0 ≤ s) :
    ∀ ⦃i j : ℕ⦄ ⦃a b : ℚ⦄, i ≤ j → (colOffsets c).get? i = some a →
      (colOffsets c).get? j = some b → a ≤ b := by
  intro i j a b hij ha hb
  exact calculateOffsets_mono (colWidths c) h hij ha hb

theorem visibleRow_le {α : Type} (c : GridConfig α) (ws : Size2) (y : ℚ)
    (h : ∀ s ∈ rowHeights c, 0 ≤ s) (hh : 0 ≤ ws.height) :
    visibleFromRow c y ≤ visibleToRow c ws y := by
  unfold visibleFromRow visibleToRow
  refine visibleFromList_le_visibleToList (rowOffsets c) (numRows c) ws.height y ?_ hh
    (rowOffsets_mono c h)
  rw [rowOffsets_length]

theorem visibleCol_le {α : Type} (c : GridConfig α) (ws : Size2) (x : ℚ)
    (h : ∀ s ∈ colWidths c, 0 ≤ s) (hw : 0 ≤ ws.width) :
    visibleFromCol c x ≤ visibleToCol c ws x := by
  unfold visibleFromCol visibleToCol
  refine visibleFromList_le_visibleToList (colOffsets c) (numCols c) ws.width x ?_ hw
    (colOffsets_mono c h)
  rw [colOffsets_length]

/-- C1: after an accepted `setOffset` the materialized render window
satisfies `0 ≤ fromRow ≤ toRow ≤ numRows` (and the same for columns), and
every valid row index `r` and column index `q` of the visible range
computed directly from the offset and viewport lies inside that window.
Hypotheses: nonnegative sizes and viewport (the size contract of the
spec), a nonnegative render batch size, and the window invariant for the
previous window. -/
theorem claimC1 {α : Type} (c : GridConfig α) (s : GridState) (off : Offset)
    (force : Bool) (r q : ℤ)
    (hrh : ∀ v ∈ rowHeights c, 0 ≤ v) (hcw : ∀ v ∈ colWidths c, 0 ≤ v)
    (hww : 0 ≤ s.windowSize.width) (hwh : 0 ≤ s.windowSize.height)
    (hb : 0 ≤ c.renderBatchSize)
    (hwin : windowInvariant c s.renderWindow)
    (hacc : (setOffset c s off force).2 = true)
    (hr0 : 0 ≤ r) (hrn : r < (numRows c : ℤ))
    (hrvf : visibleFromRow c off.y ≤ r) (hrvt : r < visibleToRow c s.windowSize off.y)
    (hq0 : 0 ≤ q) (hqn : q < (numCols c : ℤ))
    (hqvf : visibleFromCol c off.x ≤ q) (hqvt : q < visibleToCol c s.windowSize off.x) :
    windowInvariant c ((setOffset c s off force).1.renderWindow) ∧
    ((setOffset c s off force).1.renderWindow.fromRow ≤ r ∧
      r < (setOffset c s off force).1.renderWindow.toRow) ∧
    ((setOffset c s off force).1.renderWindow.fromCol ≤ q ∧
      q < (setOffset c s off force).1.renderWindow.toCol) := by
  have hvfR := visibleRow_le c s.windowSize off.y hrh hwh
  have hvfC := visibleCol_le c s.windowSize off.x hcw hww
  have hvfRlt : visibleFromRow c off.y < (numRows c : ℤ) := by
    have h1 := visibleFromList_le (rowOffsets c) off.y
    have h2 := rowOffsets_length c
    unfold visibleFromRow
    omega
  have hvfClt : visibleFromCol c off.x < (numCols c : ℤ) := by
    have h1 := visibleFromList_le (colOffsets c) off.x
    have h2 := colOffsets_length c
    unfold visibleFromCol
    omega
  have hvtR0 : 0 ≤ visibleToRow c s.windowSize off.y := by
    unfold visibleToRow
    exact visibleToList_nonneg _ _ _ _ (by omega)
  have hvtC0 : 0 ≤ visibleToCol c s.windowSize off.x := by
    unfold visibleToCol
    exact visibleToList_nonneg _ _ _ _ (by omega)
  have hvtRle : visibleToRow c s.windowSize off.y ≤ (numRows c : ℤ) := by
    unfold visibleToRow
    refine visibleToList_le _ _ _ _ ?_
    rw [rowOffsets_length]
  have hvtCle : visibleToCol c s.windowSize off.x ≤ (numCols c : ℤ) := by
    unfold visibleToCol
    refine visibleToList_le _ _ _ _ ?_
    rw [colOffsets_length]
  obtain ⟨w1, w2, w3, w4, w5, w6⟩ := hwin
  unfold setOffset at hacc ⊢
  split at hacc
  case isTrue h =>
    rw [if_pos h]
    dsimp only
    rw [resolveWindow_eq_hysteresisWindow]
    have hAr := hysteresisAxis_invariant (numRows c) c.renderBatchSize
      (visibleFromRow c off.y) (visibleToRow c s.windowSize off.y)
      s.renderWindow.fromRow s.renderWindow.toRow hb hvfR hvfRlt hvtR0 hvtRle w1 w2 w3
    have hAc := hysteresisAxis_invariant (numCols c) c.renderBatchSize
      (visibleFromCol c off.x) (visibleToCol c s.windowSize off.x)
      s.renderWindow.fromCol s.renderWindow.toCol hb hvfC hvfClt hvtC0 hvtCle w4 w5 w6
    have hSr := hysteresisAxis_subset (numRows c) c.renderBatchSize
      (visibleFromRow c off.y) (visibleToRow c s.windowSize off.y)
      s.renderWindow.fromRow s.renderWindow.toRow r hb hr0 hrn hrvf hrvt
    have hSc := hysteresisAxis_subset (numCols c) c.renderBatchSize
      (visibleFromCol c off.x) (visibleToCol c s.windowSize off.x)
      s.renderWindow.fromCol s.renderWindow.toCol q hb hq0 hqn hqvf hqvt
    unfold hysteresisWindow windowInvariant
    dsimp only
    exact ⟨⟨hAr.1, hAr.2.1, hAr.2.2, hAc.1, hAc.2.1, hAc.2.2⟩,
      ⟨hSr.1, hSr.2⟩, ⟨hSc.1, hSc.2⟩⟩
  case isFalse h =>
    simp at hacc

/-! Evaluation lemmas for the concrete grids.  The arithmetic operations
on `Rat` are irreducible, so concrete runs of the engine are evaluated by
rewriting with these lemmas instead of by kernel reduction. -/

theorem rowOffsets_cfgTall : rowOffsets cfgTall = [0, 40] := by
  have hrange : List.range 1 = [0] := by decide
  have hsz : rowHeights cfgTall = [40, 40] := by decide
  simp [rowOffsets, hsz, calculateOffsets, hrange]

theorem colOffsets_cfgTall : colOffsets cfgTall = [0] := by
  have hsz : colWidths cfgTall = [80] := by decide
  simp [colOffsets, hsz, calculateOffsets]

theorem totalSize_cfgTall : totalSize cfgTall = ⟨80, 80⟩ := by
  have h1 : numCols cfgTall = 1 := by decide
  have h2 : numRows cfgTall = 2 := by decide
  have h3 : rowHeights cfgTall = [40, 40] := by decide
  have h4 : colWidths cfgTall = [80] := by decide
  simp [totalSize, h1, h2, h3, h4, rowOffsets_cfgTall, colOffsets_cfgTall]
  norm_num

theorem scroll_cfgTall_offset :
    (scroll cfgTall (initState ⟨0, 0⟩ ⟨100, 50⟩) 0 10).1.offset = ⟨-20, 10⟩ := by
  have hsp : cfgTall.scrollSpeed = 1 := rfl
  simp only [scroll, totalSize_cfgTall, initState]
  norm_num [maxOffset, totalSize_cfgTall, setOffset, min_def, max_def, hsp]

theorem clamp_bounds (M B : ℚ) :
    min 0 M ≤ min M (max 0 B) ∧ min M (max 0 B) ≤ max 0 M :=
  ⟨le_trans (le_of_eq (min_comm 0 M)) (min_le_min (le_refl M) (le_max_left 0 B)),
    le_trans (min_le_left M (max 0 B)) (le_max_right 0 M)⟩

/-- C2 as stated is refuted: in a grid of total size 80 by 80 with a
100 by 50 viewport, the content fits horizontally, yet `scroll(0, 10)`
from offset `{0, 0}` moves the x offset to `maxOffset.x = -20`: the x
axis is not a no-op and the resulting offset is not in `[0, maxOffset.x]`
(which is empty). -/
theorem claimC2_counterexample :
    (totalSize cfgTall).width ≤ (initState ⟨0, 0⟩ ⟨100, 50⟩).windowSize.width ∧
    (initState ⟨0, 0⟩ ⟨100, 50⟩).offset.x = 0 ∧
    (scroll cfgTall (initState ⟨0, 0⟩ ⟨100, 50⟩) 0 10).1.offset.x = -20 ∧
    ¬(0 ≤ (scroll cfgTall (initState ⟨0, 0⟩ ⟨100, 50⟩) 0 10).1.offset.x) := by
  refine ⟨?_, rfl, ?_, ?_⟩
  · rw [totalSize_cfgTall]
    norm_num [initState]
  · rw [scroll_cfgTall_offset]
  · rw [scroll_cfgTall_offset]
    norm_num

theorem setOffset_offset_false {α : Type} (c : GridConfig α) (s : GridState) (off : Offset) :
    (setOffset c s off false).1.offset = off := by
  obtain ⟨ox, oy⟩ := off
  unfold setOffset
  split
  · rfl
  next hcond =>
    push_neg at hcond
    dsimp only
    calc s.offset = ⟨s.offset.x, s.offset.y⟩ := rfl
      _ = ⟨ox, oy⟩ := by rw [hcond.2.1, hcond.2.2]

theorem scroll_fits {α : Type} (c : GridConfig α) (s : GridState) (deltaX deltaY : ℚ)
    (h : (totalSize c).width ≤ s.windowSize.width ∧
      (totalSize c).height ≤ s.windowSize.height) :
    scroll c s deltaX deltaY = (s, false) := by
  unfold scroll
  rw [if_pos h]

theorem scroll_offset_eq {α : Type} (c : GridConfig α) (s : GridState) (deltaX deltaY : ℚ)
    (h : ¬((totalSize c).width ≤ s.windowSize.width ∧
      (totalSize c).height ≤ s.windowSize.height)) :
    (scroll c s deltaX deltaY).1.offset =
      ⟨min (maxOffset c s.windowSize).x
          (max 0 (s.offset.x + (if s.windowSize.width = 0 then 0 else deltaX) * c.scrollSpeed)),
        min (maxOffset c s.windowSize).y
          (max 0 (s.offset.y + (if s.windowSize.height = 0 then 0 else deltaY) * c.scrollSpeed))⟩ := by
  unfold scroll
  rw [if_neg h]
  exact setOffset_offset_false c s _

theorem scroll_accepted_not_fits {α : Type} (c : GridConfig α) (s : GridState)
    (deltaX deltaY : ℚ) (hacc : (scroll c s deltaX deltaY).2 = true) :
    ¬((totalSize c).width ≤ s.windowSize.width ∧
      (totalSize c).height ≤ s.windowSize.height) := by
  intro h
  rw [scroll_fits c s deltaX deltaY h] at hacc
  cases hacc

/-- C2 amended: when the grid fits the viewport on both axes, `scroll` is
a no-op leaving the whole state unchanged; otherwise the resulting offset
lies on each axis in `[min 0 maxOffset, max 0 maxOffset]`, independent of
delta magnitude or sign — in particular in `[0, maxOffset]` whenever
`maxOffset ≥ 0` on that axis, while on an axis whose content fits
(`maxOffset ≤ 0`) the offset is pinned to exactly `maxOffset`. -/
theorem claimC2 {α : Type} (c : GridConfig α) (s : GridState) (deltaX deltaY : ℚ) :
    ((totalSize c).width ≤ s.windowSize.width ∧ (totalSize c).height ≤ s.windowSize.height →
      (scroll c s deltaX deltaY).1 = s) ∧
    (¬((totalSize c).width ≤ s.windowSize.width ∧ (totalSize c).height ≤ s.windowSize.height) →
      min 0 (maxOffset c s.windowSize).x ≤ (scroll c s deltaX deltaY).1.offset.x ∧
      (scroll c s deltaX deltaY).1.offset.x ≤ max 0 (maxOffset c s.windowSize).x ∧
      min 0 (maxOffset c s.windowSize).y ≤ (scroll c s deltaX deltaY).1.offset.y ∧
      (scroll c s deltaX deltaY).1.offset.y ≤ max 0 (maxOffset c s.windowSize).y) ∧
    (¬((totalSize c).width ≤ s.windowSize.width ∧ (totalSize c).height ≤ s.windowSize.height) →
      0 ≤ (maxOffset c s.windowSize).x →
      0 ≤ (scroll c s deltaX deltaY).1.offset.x ∧
      (scroll c s deltaX deltaY).1.offset.x ≤ (maxOffset c s.windowSize).x) ∧
    (¬((totalSize c).width ≤ s.windowSize.width ∧ (totalSize c).height ≤ s.windowSize.height) →
      0 ≤ (maxOffset c s.windowSize).y →
      0 ≤ (scroll c s deltaX deltaY).1.offset.y ∧
      (scroll c s deltaX deltaY).1.offset.y ≤ (maxOffset c s.windowSize).y) ∧
    (¬((totalSize c).width ≤ s.windowSize.width ∧ (totalSize c).height ≤ s.windowSize.height) →
      (maxOffset c s.windowSize).x ≤ 0 →
      (scroll c s deltaX deltaY).1.offset.x = (maxOffset c s.windowSize).x) ∧
    (¬((totalSize c).width ≤ s.windowSize.width ∧ (totalSize c).height ≤ s.windowSize.height) →
      (maxOffset c s.windowSize).y ≤ 0 →
      (scroll c s deltaX deltaY).1.offset.y = (maxOffset c s.windowSize).y) := by
  refine ⟨?_, ?_, ?_, ?_, ?_, ?_⟩
  · intro h
    rw [scroll_fits c s deltaX deltaY h]
  · intro h
    rw [scroll_offset_eq c s deltaX deltaY h]
    exact ⟨(clamp_bounds _ _).1, (clamp_bounds _ _).2,
      (clamp_bounds _ _).1, (clamp_bounds _ _).2⟩
  · intro h hM
    rw [scroll_offset_eq c s deltaX deltaY h]
    exact ⟨le_min hM (le_max_left 0 _), min_le_left _ _⟩
  · intro h hM
    rw [scroll_offset_eq c s deltaX deltaY h]
    exact ⟨le_min hM (le_max_left 0 _), min_le_left _ _⟩
  · intro h hM
    rw [scroll_offset_eq c s deltaX deltaY h]
    exact min_eq_left (le_trans hM (le_max_left 0 _))
  · intro h hM
    rw [scroll_offset_eq c s deltaX deltaY h]
    exact min_eq_left (le_trans hM (le_max_left 0 _))

theorem setOffset_snd_true {α : Type} (c : GridConfig α) (s : GridState) (off : Offset)
    (hne : s.offset ≠ off) : (setOffset c s off false).2 = true := by
  obtain ⟨ox, oy⟩ := off
  unfold setOffset
  split
  · rfl
  next hcond =>
    push_neg at hcond
    refine absurd ?_ hne
    calc s.offset = ⟨s.offset.x, s.offset.y⟩ := rfl
      _ = ⟨ox, oy⟩ := by rw [hcond.2.1, hcond.2.2]

theorem scroll_snd_true {α : Type} (c : GridConfig α) (s : GridState) (deltaX deltaY : ℚ)
    (hfit : ¬((totalSize c).width ≤ s.windowSize.width ∧
      (totalSize c).height ≤ s.windowSize.height))
    (hne : s.offset ≠
      ⟨min (maxOffset c s.windowSize).x
          (max 0 (s.offset.x + (if s.windowSize.width = 0 then 0 else deltaX) * c.scrollSpeed)),
        min (maxOffset c s.windowSize).y
          (max 0 (s.offset.y + (if s.windowSize.height = 0 then 0 else deltaY) * c.scrollSpeed))⟩) :
    (scroll c s deltaX deltaY).2 = true := by
  unfold scroll
  rw [if_neg hfit]
  exact setOffset_snd_true c s _ hne

/-- C4 as stated is refuted: with a measured viewport of width 0 and
height 50 over an 80 by 80 grid, `scroll(10, 5)` from offset `{0, 0}` is
accepted, but the x offset becomes 0 (the raw x delta is ignored because
the measured width is 0), not the claimed clamped candidate
`min(maxOffset.x, max(0, 0 + 10 * scrollSpeed)) = 10`. -/
theorem claimC4_counterexample :
    (scroll cfgTall (initState ⟨0, 0⟩ ⟨0, 50⟩) 10 5).2 = true ∧
    (scroll cfgTall (initState ⟨0, 0⟩ ⟨0, 50⟩) 10 5).1.offset.x = 0 ∧
    min (maxOffset cfgTall ⟨0, 50⟩).x
      (max 0 ((initState ⟨0, 0⟩ ⟨0, 50⟩).offset.x + 10 * cfgTall.scrollSpeed)) = 10 ∧
    (0 : ℚ) ≠ 10 := by
  have hfit : ¬((totalSize cfgTall).width ≤ (initState ⟨0, 0⟩ ⟨0, 50⟩).windowSize.width ∧
      (totalSize cfgTall).height ≤ (initState ⟨0, 0⟩ ⟨0, 50⟩).windowSize.height) := by
    rw [totalSize_cfgTall]
    norm_num [initState]
  refine ⟨?_, ?_, ?_, by norm_num⟩
  · refine scroll_snd_true cfgTall _ 10 5 hfit ?_
    have hsp : cfgTall.scrollSpeed = 1 := rfl
    norm_num [initState, maxOffset, totalSize_cfgTall, min_def, max_def, hsp]
  · rw [scroll_offset_eq cfgTall _ 10 5 hfit]
    have hsp : cfgTall.scrollSpeed = 1 := rfl
    norm_num [initState, maxOffset, totalSize_cfgTall, min_def, max_def, hsp]
  · have hsp : cfgTall.scrollSpeed = 1 := rfl
    norm_num [initState, maxOffset, totalSize_cfgTall, min_def, max_def, hsp]

/-- C4 amended: whenever `scroll` is accepted, the authoritative offset
equals on each axis the clamped candidate
`min(maxOffset.axis, max(0, offset.axis + effectiveDelta.axis * scrollSpeed))`,
where the effective delta of an axis is the raw delta unless that axis's
measured viewport size is 0, in which case it is 0. -/
theorem claimC4 {α : Type} (c : GridConfig α) (s : GridState) (deltaX deltaY : ℚ)
    (hacc : (scroll c s deltaX deltaY).2 = true) :
    (scroll c s deltaX deltaY).1.offset.x
      = min (maxOffset c s.windowSize).x
          (max 0 (s.offset.x + (if s.windowSize.width = 0 then 0 else deltaX) * c.scrollSpeed)) ∧
    (scroll c s deltaX deltaY).1.offset.y
      = min (maxOffset c s.windowSize).y
          (max 0 (s.offset.y + (if s.windowSize.height = 0 then 0 else deltaY) * c.scrollSpeed)) := by
  have h := scroll_accepted_not_fits c s deltaX deltaY hacc
  rw [scroll_offset_eq c s deltaX deltaY h]
  exact ⟨rfl, rfl⟩

/-- Witness for C4: the accepted call from the counterexample state
lands exactly on the clamped effective-delta candidate on both axes. -/
theorem claimC4_witness :
    (scroll cfgTall (initState ⟨0, 0⟩ ⟨0, 50⟩) 10 5).1.offset.x
      = min (maxOffset cfgTall (initState ⟨0, 0⟩ ⟨0, 50⟩).windowSize).x
          (max 0 ((initState ⟨0, 0⟩ ⟨0, 50⟩).offset.x +
            (if (initState ⟨0, 0⟩ ⟨0, 50⟩).windowSize.width = 0 then 0 else 10) *
              cfgTall.scrollSpeed)) ∧
    (scroll cfgTall (initState ⟨0, 0⟩ ⟨0, 50⟩) 10 5).1.offset.y
      = min (maxOffset cfgTall (initState ⟨0, 0⟩ ⟨0, 50⟩).windowSize).y
          (max 0 ((initState ⟨0, 0⟩ ⟨0, 50⟩).offset.y +
            (if (initState ⟨0, 0⟩ ⟨0, 50⟩).windowSize.height = 0 then 0 else 5) *
              cfgTall.scrollSpeed)) := by
  refine claimC4 cfgTall (initState ⟨0, 0⟩ ⟨0, 50⟩) 10 5 ?_
  have hfit : ¬((totalSize cfgTall).width ≤ (initState ⟨0, 0⟩ ⟨0, 50⟩).windowSize.width ∧
      (totalSize cfgTall).height ≤ (initState ⟨0, 0⟩ ⟨0, 50⟩).windowSize.height) := by
    rw [totalSize_cfgTall]
    norm_num [initState]
  refine scroll_snd_true cfgTall _ 10 5 hfit ?_
  have hsp : cfgTall.scrollSpeed = 1 := rfl
  norm_num [initState, maxOffset, totalSize_cfgTall, min_def, max_def, hsp]

/-- C10 as stated is refuted: with empty rows (total size 0), viewport
`{0, 0}` and previous offset `x = 5` (seeded by `initOffset`), `scroll`
returns early because the content fits on both axes, leaving the x offset
at 5 instead of the claimed clamp
`min(maxOffset.x, max(0, 5)) = 0`. -/
theorem claimC10_counterexample :
    (initState ⟨5, 0⟩ ⟨0, 0⟩).windowSize.width = 0 ∧
    (scroll cfgEmpty (initState ⟨5, 0⟩ ⟨0, 0⟩) 10 0).1.offset.x = 5 ∧
    min (maxOffset cfgEmpty ⟨0, 0⟩).x (max 0 (5 : ℚ)) = 0 ∧
    (5 : ℚ) ≠ 0 := by
  have hts : totalSize cfgEmpty = ⟨0, 0⟩ := by decide
  have hfit : (totalSize cfgEmpty).width ≤ (initState ⟨5, 0⟩ ⟨0, 0⟩).windowSize.width ∧
      (totalSize cfgEmpty).height ≤ (initState ⟨5, 0⟩ ⟨0, 0⟩).windowSize.height := by
    rw [hts]
    norm_num [initState]
  refine ⟨rfl, ?_, ?_, by norm_num⟩
  · rw [scroll_fits cfgEmpty _ 10 0 hfit]
    rfl
  · norm_num [maxOffset, hts, min_def, max_def]

/-- C10 amended: on an axis whose measured viewport size is 0 the raw
delta on that axis is ignored; unless the grid fits the viewport on both
axes (in which case `scroll` returns early and the whole state, offset
included, is exactly unchanged), the resulting offset component on a
zero-sized axis is the previous component clamped by
`min(maxOffset, max(0, ·))`; an in-range component on a zero-sized axis
is always left unchanged, so before the first viewport measurement (both
sizes 0) scrolling never moves an in-range offset at all. -/
theorem claimC10 {α : Type} (c : GridConfig α) (s : GridState) (deltaX deltaY : ℚ) :
    ((totalSize c).width ≤ s.windowSize.width ∧ (totalSize c).height ≤ s.windowSize.height →
      (scroll c s deltaX deltaY).1 = s) ∧
    (s.windowSize.width = 0 →
      ¬((totalSize c).width ≤ s.windowSize.width ∧
        (totalSize c).height ≤ s.windowSize.height) →
      (scroll c s deltaX deltaY).1.offset.x
        = min (maxOffset c s.windowSize).x (max 0 s.offset.x)) ∧
    (s.windowSize.height = 0 →
      ¬((totalSize c).width ≤ s.windowSize.width ∧
        (totalSize c).height ≤ s.windowSize.height) →
      (scroll c s deltaX deltaY).1.offset.y
        = min (maxOffset c s.windowSize).y (max 0 s.offset.y)) ∧
    (s.windowSize.width = 0 → 0 ≤ s.offset.x → s.offset.x ≤ (maxOffset c s.windowSize).x →
      (scroll c s deltaX deltaY).1.offset.x = s.offset.x) ∧
    (s.windowSize.height = 0 → 0 ≤ s.offset.y → s.offset.y ≤ (maxOffset c s.windowSize).y →
      (scroll c s deltaX deltaY).1.offset.y = s.offset.y) ∧
    (s.windowSize.width = 0 → s.windowSize.height = 0 →
      0 ≤ s.offset.x → s.offset.x ≤ (maxOffset c s.windowSize).x →
      0 ≤ s.offset.y → s.offset.y ≤ (maxOffset c s.windowSize).y →
      (scroll c s deltaX deltaY).1.offset = s.offset) := by
  have hclampX : ∀ hw : s.windowSize.width = 0,
      ∀ h : ¬((totalSize c).width ≤ s.windowSize.width ∧
        (totalSize c).height ≤ s.windowSize.height),
      (scroll c s deltaX deltaY).1.offset.x
        = min (maxOffset c s.windowSize).x (max 0 s.offset.x) := by
    intro hw h
    rw [scroll_offset_eq c s deltaX deltaY h]
    rw [if_pos hw]
    norm_num
  have hclampY : ∀ hh : s.windowSize.height = 0,
      ∀ h : ¬((totalSize c).width ≤ s.windowSize.width ∧
        (totalSize c).height ≤ s.windowSize.height),
      (scroll c s deltaX deltaY).1.offset.y
        = min (maxOffset c s.windowSize).y (max 0 s.offset.y) := by
    intro hh h
    rw [scroll_offset_eq c s deltaX deltaY h]
    rw [if_pos hh]
    norm_num
  have hkeepX : ∀ hw : s.windowSize.width = 0, 0 ≤ s.offset.x →
      s.offset.x ≤ (maxOffset c s.windowSize).x →
      (scroll c s deltaX deltaY).1.offset.x = s.offset.x := by
    intro hw h0 hle
    by_cases h : (totalSize c).width ≤ s.windowSize.width ∧
        (totalSize c).height ≤ s.windowSize.height
    · rw [scroll_fits c s deltaX deltaY h]
    · rw [hclampX hw h, max_eq_right h0, min_eq_right hle]
  have hkeepY : ∀ hh : s.windowSize.height = 0, 0 ≤ s.offset.y →
      s.offset.y ≤ (maxOffset c s.windowSize).y →
      (scroll c s deltaX deltaY).1.offset.y = s.offset.y := by
    intro hh h0 hle
    by_cases h : (totalSize c).width ≤ s.windowSize.width ∧
        (totalSize c).height ≤ s.windowSize.height
    · rw [scroll_fits c s deltaX deltaY h]
    · rw [hclampY hh h, max_eq_right h0, min_eq_right hle]
  refine ⟨?_, hclampX, hclampY, hkeepX, hkeepY, ?_⟩
  · intro h
    rw [scroll_fits c s deltaX deltaY h]
  · intro hw hh hx0 hxle hy0 hyle
    calc (scroll c s deltaX deltaY).1.offset
        = ⟨(scroll c s deltaX deltaY).1.offset.x,
            (scroll c s deltaX deltaY).1.offset.y⟩ := rfl
      _ = ⟨s.offset.x, s.offset.y⟩ := by rw [hkeepX hw hx0 hxle, hkeepY hh hy0 hyle]
      _ = s.offset := rfl

/-- Witness for C10 (amended): a state measured at width 0 and height 50
over the 80 by 80 grid with in-range offset `{0, 0}`, scrolled by
`(10, 5)`: the x axis ignores its delta and the clamp keeps `x = 0`; and
the empty grid at viewport `{0, 0}` with offset `{0, 0}` is left entirely
unchanged by `scroll(10, 0)`. -/
theorem claimC10_witness :
    (scroll cfgTall (initState ⟨0, 0⟩ ⟨0, 50⟩) 10 5).1.offset.x
      = (initState ⟨0, 0⟩ ⟨0, 50⟩).offset.x ∧
    (scroll cfgEmpty (initState ⟨0, 0⟩ ⟨0, 0⟩) 10 0).1.offset
      = (initState ⟨0, 0⟩ ⟨0, 0⟩).offset := by
  constructor
  · refine (claimC10 cfgTall (initState ⟨0, 0⟩ ⟨0, 50⟩) 10 5).2.2.2.1 rfl (by decide) ?_
    show (0 : ℚ) ≤ (maxOffset cfgTall (initState ⟨0, 0⟩ ⟨0, 50⟩).windowSize).x
    norm_num [maxOffset, totalSize_cfgTall, initState]
  · refine (claimC10 cfgEmpty (initState ⟨0, 0⟩ ⟨0, 0⟩) 10 0).2.2.2.2.2 rfl rfl
      (by decide) ?_ (by decide) ?_
    · show (0 : ℚ) ≤ (maxOffset cfgEmpty (initState ⟨0, 0⟩ ⟨0, 0⟩).windowSize).x
      have hts : totalSize cfgEmpty = ⟨0, 0⟩ := by decide
      norm_num [maxOffset, hts, initState]
    · show (0 : ℚ) ≤ (maxOffset cfgEmpty (initState ⟨0, 0⟩ ⟨0, 0⟩).windowSize).y
      have hts : totalSize cfgEmpty = ⟨0, 0⟩ := by decide
      norm_num [maxOffset, hts, initState]

theorem rowOffsets_cfgSquare : rowOffsets cfgSquare = [0, 40, 80] := by
  have hrange : List.range 3 = [0, 1, 2] := by decide
  have hsz : rowHeights cfgSquare = List.replicate 3 40 := by decide
  rw [rowOffsets, hsz, calculateOffsets_eq]
  simp only [List.length_replicate, hrange, List.map_cons, List.map_nil,
    List.take_replicate, List.sum_replicate, smul_eq_mul]
  norm_num

theorem colOffsets_cfgSquare : colOffsets cfgSquare = [0, 80, 160] := by
  have hrange : List.range 3 = [0, 1, 2] := by decide
  have hsz : colWidths cfgSquare = List.replicate 3 80 := by decide
  rw [colOffsets, hsz, calculateOffsets_eq]
  simp only [List.length_replicate, hrange, List.map_cons, List.map_nil,
    List.take_replicate, List.sum_replicate, smul_eq_mul]
  norm_num

theorem visibleToRow_cfgSquare : visibleToRow cfgSquare ⟨100, 100⟩ 0 = 3 := by
  have hn : numRows cfgSquare = 3 := by decide
  unfold visibleToRow visibleToList
  rw [rowOffsets_cfgSquare, hn]
  norm_num [findIndexGE]

theorem visibleToCol_cfgSquare : visibleToCol cfgSquare ⟨100, 100⟩ 0 = 2 := by
  have hn : numCols cfgSquare = 3 := by decide
  unfold visibleToCol visibleToList
  rw [colOffsets_cfgSquare, hn]
  norm_num [findIndexGE]

/-- Witness for C1: the first forced resolution of a 3 by 3 grid in a
100 by 100 viewport materializes a window containing the visible cell
`(0, 0)` and satisfying the bounds invariant. -/
theorem claimC1_witness :
    windowInvariant cfgSquare
      ((setOffset cfgSquare (initState ⟨0, 0⟩ ⟨100, 100⟩) ⟨0, 0⟩ true).1.renderWindow) ∧
    ((setOffset cfgSquare (initState ⟨0, 0⟩ ⟨100, 100⟩) ⟨0, 0⟩ true).1.renderWindow.fromRow ≤ 0 ∧
      (0 : ℤ) < (setOffset cfgSquare (initState ⟨0, 0⟩ ⟨100, 100⟩) ⟨0, 0⟩
        true).1.renderWindow.toRow) ∧
    ((setOffset cfgSquare (initState ⟨0, 0⟩ ⟨100, 100⟩) ⟨0, 0⟩ true).1.renderWindow.fromCol ≤ 0 ∧
      (0 : ℤ) < (setOffset cfgSquare (initState ⟨0, 0⟩ ⟨100, 100⟩) ⟨0, 0⟩
        true).1.renderWindow.toCol) :=
  claimC1 cfgSquare (initState ⟨0, 0⟩ ⟨100, 100⟩) ⟨0, 0⟩ true 0 0
    (by decide) (by decide) (by decide) (by decide) (by decide) (by decide) (by decide)
    (by decide) (by decide)
    (by unfold visibleFromRow; rw [rowOffsets_cfgSquare]; decide)
    (by show (0 : ℤ) < visibleToRow cfgSquare ⟨100, 100⟩ 0
        rw [visibleToRow_cfgSquare]; decide)
    (by decide) (by decide)
    (by unfold visibleFromCol; rw [colOffsets_cfgSquare]; decide)
    (by show (0 : ℤ) < visibleToCol cfgSquare ⟨100, 100⟩ 0
        rw [visibleToCol_cfgSquare]; decide)

theorem rowOffsets_cfgThirty :
    rowOffsets cfgThirty = [0, 40, 80, 120, 160, 200, 240, 280, 320, 360, 400, 440, 480,
      520, 560, 600, 640, 680, 720, 760, 800, 840, 880, 920, 960, 1000, 1040, 1080,
      1120, 1160] := by
  have hrange : List.range 30 = [0, 1, 2, 3, 4, 5, 6, 7, 8, 9, 10, 11, 12, 13, 14, 15,
    16, 17, 18, 19, 20, 21, 22, 23, 24, 25, 26, 27, 28, 29] := by decide
  have hsz : rowHeights cfgThirty = List.replicate 30 40 := by decide
  rw [rowOffsets, hsz, calculateOffsets_eq]
  simp only [List.length_replicate, hrange, List.map_cons, List.map_nil,
    List.take_replicate, List.sum_replicate, smul_eq_mul]
  norm_num

theorem colOffsets_cfgThirty : colOffsets cfgThirty = [0] := by
  have hsz : colWidths cfgThirty = [80] := by decide
  simp [colOffsets, hsz, calculateOffsets]

theorem visibleFromRow_cfgThirty : visibleFromRow cfgThirty 390 = 9 := by
  unfold visibleFromRow
  rw [rowOffsets_cfgThirty]
  decide

theorem visibleToRow_cfgThirty : visibleToRow cfgThirty ⟨100, 800⟩ 390 = 30 := by
  have hn : numRows cfgThirty = 30 := by decide
  unfold visibleToRow visibleToList
  rw [rowOffsets_cfgThirty, hn]
  norm_num [findIndexGE]

theorem visibleFromCol_cfgThirty : visibleFromCol cfgThirty 0 = 0 := by
  unfold visibleFromCol
  rw [colOffsets_cfgThirty]
  decide

theorem visibleToCol_cfgThirty : visibleToCol cfgThirty ⟨100, 800⟩ 0 = 1 := by
  have hn : numCols cfgThirty = 1 := by decide
  unfold visibleToCol visibleToList
  rw [colOffsets_cfgThirty, hn]
  norm_num [findIndexGE]

theorem resolveWindow_cfgThirty :
    resolveWindow cfgThirty ⟨100, 800⟩ ⟨0, 390⟩ ⟨10, 16, 0, 1⟩ = ⟨4, 30, 0, 1⟩ := by
  unfold resolveWindow
  dsimp only
  rw [visibleFromRow_cfgThirty, visibleToRow_cfgThirty, visibleFromCol_cfgThirty,
    visibleToCol_cfgThirty, rowOffsets_cfgThirty, colOffsets_cfgThirty]
  decide

/-- C3 as stated is refuted: with thirty 40px rows, previous window rows
`[10, 16)`, offset `y = 390` and viewport height 800, both
`visibleFrom.row = 9 < 10` and `visibleTo.row = 30 > 16` hold, yet the
resolved window rows are `[4, 30)` and not the `[9, 30)` demanded by the
claim's forward rule stated against the current `toRow`. -/
theorem claimC3_counterexample :
    visibleFromRow cfgThirty 390 = 9 ∧
    visibleToRow cfgThirty ⟨100, 800⟩ 390 = 30 ∧
    ((9 : ℤ) < 10 ∧ (16 : ℤ) < 30) ∧
    resolveWindow cfgThirty ⟨100, 800⟩ ⟨0, 390⟩ ⟨10, 16, 0, 1⟩ = ⟨4, 30, 0, 1⟩ ∧
    claimedForwardAxis 30 5 9 30 = (9, 30) ∧
    (4 : ℤ) ≠ 9 :=
  ⟨visibleFromRow_cfgThirty, visibleToRow_cfgThirty, by decide,
    resolveWindow_cfgThirty, by decide, by decide⟩

/-- C3 amended: window resolution applies the hysteresis rule with the
forward condition evaluated against the `toRow`/`toCol` already updated
by the backward rule (so the forward rule fires only when the backward
rule did not), rows and columns independent, each axis clamped to
`[0, count]` after expansion, and the window unchanged (up to the clamp)
when the visible range stays inside it. -/
theorem claimC3 {α : Type} (c : GridConfig α) (ws : Size2) (off : Offset)
    (w : RenderWindow) :
    resolveWindow c ws off w = hysteresisWindow c ws off w :=
  resolveWindow_eq_hysteresisWindow c ws off w

theorem mem_filterIdx (p : ℕ → ℤ → Bool) (x : ℤ) :
    ∀ (l : List ℤ) (i0 : ℕ), x ∈ filterIdx p i0 l ↔
      ∃ j : ℕ, l.get? j = some x ∧ p (i0 + j) x = true := by
  intro l
  induction l with
  | nil =>
      intro i0
      simp [filterIdx]
  | cons a rest ih =>
      intro i0
      constructor
      · intro hmem
        unfold filterIdx at hmem
        by_cases hp : p i0 a = true
        · rw [if_pos hp] at hmem
          rcases List.mem_cons.mp hmem with rfl | hmem2
          · exact ⟨0, rfl, by simpa using hp⟩
          · obtain ⟨j, hj, hpj⟩ := (ih (i0 + 1)).mp hmem2
            refine ⟨j + 1, by simpa using hj, ?_⟩
            have he : i0 + (j + 1) = i0 + 1 + j := by omega
            rw [he]
            exact hpj
        · rw [if_neg hp] at hmem
          obtain ⟨j, hj, hpj⟩ := (ih (i0 + 1)).mp hmem
          refine ⟨j + 1, by simpa using hj, ?_⟩
          have he : i0 + (j + 1) = i0 + 1 + j := by omega
          rw [he]
          exact hpj
      · rintro ⟨j, hj, hpj⟩
        unfold filterIdx
        cases j with
        | zero =>
            have hax : a = x := by simpa using hj
            subst hax
            have hp : p i0 a = true := by simpa using hpj
            rw [if_pos hp]
            exact List.mem_cons_self a _
        | succ j =>
            have hj2 : rest.get? j = some x := by simpa using hj
            have hpj2 : p (i0 + 1 + j) x = true := by
              have he : i0 + 1 + j = i0 + (j + 1) := by omega
              rw [he]
              exact hpj
            have hmem2 : x ∈ filterIdx p (i0 + 1) rest := (ih (i0 + 1)).mpr ⟨j, hj2, hpj2⟩
            by_cases hp : p i0 a = true
            · rw [if_pos hp]
              exact List.mem_cons_of_mem a hmem2
            · rw [if_neg hp]
              exact hmem2

theorem nodup_get?_inj {l : List ℤ} (h : l.Nodup) {i j : ℕ} {x : ℤ}
    (hi : l.get? i = some x) (hj : l.get? j = some x) : i = j := by
  have hi1 : i < l.length := by
    by_contra hc
    rw [List.get?_eq_none.mpr (by omega)] at hi
    cases hi
  have hj1 : j < l.length := by
    by_contra hc
    rw [List.get?_eq_none.mpr (by omega)] at hj
    cases hj
  rw [List.get?_eq_get hi1] at hi
  rw [List.get?_eq_get hj1] at hj
  have : l.get ⟨i, hi1⟩ = l.get ⟨j, hj1⟩ := by
    rw [Option.some_inj.mp hi, Option.some_inj.mp hj]
  have h2 := (h.get_inj_iff).mp this
  exact congrArg Fin.val h2

theorem stickyRowOffsets_length {α : Type} (c : GridConfig α) :
    (stickyRowOffsets c).length = (sortedStickyRows c).length := by
  unfold stickyRowOffsets
  rw [calculateOffsets_length, List.length_map]

theorem stickyColOffsets_length {α : Type} (c : GridConfig α) :
    (stickyColOffsets c).length = (sortedStickyCols c).length := by
  unfold stickyColOffsets
  rw [calculateOffsets_length, List.length_map]

theorem stuckRowCond_eval {α : Type} (c : GridConfig α) (y : ℚ) (i : ℕ) (r : ℤ)
    (hr0 : 0 ≤ r) (hrlen : r.toNat < (rowOffsets c).length)
    (hilen : i < (stickyRowOffsets c).length) :
    stuckRowCond c y i r
      = decide ((rowOffsets c).getD r.toNat 0 - (stickyRowOffsets c).getD i 0 < y) := by
  unfold stuckRowCond
  have h1 : jsGet (rowOffsets c) r = some ((rowOffsets c).getD r.toNat 0) := by
    unfold jsGet
    rw [if_pos hr0, List.get?_eq_get hrlen, List.getD_eq_get _ _ hrlen]
  have h2 : jsGet (stickyRowOffsets c) (i : ℤ) = some ((stickyRowOffsets c).getD i 0) := by
    unfold jsGet
    rw [if_pos (by omega), show ((i : ℤ)).toNat = i by omega,
      List.get?_eq_get hilen, List.getD_eq_get _ _ hilen]
  rw [h1, h2]

theorem stuckColCond_eval {α : Type} (c : GridConfig α) (x : ℚ) (j : ℕ) (q : ℤ)
    (hq0 : 0 ≤ q) (hqlen : q.toNat < (colOffsets c).length)
    (hjlen : j < (stickyColOffsets c).length) :
    stuckColCond c x j q
      = decide ((colOffsets c).getD q.toNat 0 - (stickyColOffsets c).getD j 0 < x) := by
  unfold stuckColCond
  have h1 : jsGet (colOffsets c) q = some ((colOffsets c).getD q.toNat 0) := by
    unfold jsGet
    rw [if_pos hq0, List.get?_eq_get hqlen, List.getD_eq_get _ _ hqlen]
  have h2 : jsGet (stickyColOffsets c) (j : ℤ) = some ((stickyColOffsets c).getD j 0) := by
    unfold jsGet
    rw [if_pos (by omega), show ((j : ℤ)).toNat = j by omega,
      List.get?_eq_get hjlen, List.getD_eq_get _ _ hjlen]
  rw [h1, h2]

/-- C5 amended: on an offset change, a sticky row `r` at sorted position
`i` is in the stuck set exactly when
`rowOffsets[r] - stickyRowOffsets[i] < offset.y` — strictly, not the
claimed `offset.y ≥ rowOffsets[r] - stickyRowOffsets[i]`; symmetrically
for sticky columns with `offset.x`.  The sticky index lists are assumed
duplicate-free and in range (anything else is undefined behaviour per the
spec). -/
theorem claimC5 {α : Type} (c : GridConfig α) (y x : ℚ) (i j : ℕ) (r q : ℤ)
    (hndR : (sortedStickyRows c).Nodup)
    (hgetR : (sortedStickyRows c).get? i = some r)
    (hr0 : 0 ≤ r) (hrlen : r < ((rowOffsets c).length : ℤ))
    (hndC : (sortedStickyCols c).Nodup)
    (hgetC : (sortedStickyCols c).get? j = some q)
    (hq0 : 0 ≤ q) (hqlen : q < ((colOffsets c).length : ℤ)) :
    (r ∈ stuckRows c y ↔
      (rowOffsets c).getD r.toNat 0 - (stickyRowOffsets c).getD i 0 < y) ∧
    (q ∈ stuckCols c x ↔
      (colOffsets c).getD q.toNat 0 - (stickyColOffsets c).getD j 0 < x) := by
  have hilen : i < (stickyRowOffsets c).length := by
    rw [stickyRowOffsets_length]
    by_contra hc
    rw [List.get?_eq_none.mpr (by omega)] at hgetR
    cases hgetR
  have hjlen : j < (stickyColOffsets c).length := by
    rw [stickyColOffsets_length]
    by_contra hc
    rw [List.get?_eq_none.mpr (by omega)] at hgetC
    cases hgetC
  constructor
  · unfold stuckRows
    rw [mem_filterIdx]
    constructor
    · rintro ⟨k, hk, hpk⟩
      have hik : k = i := nodup_get?_inj hndR hk hgetR
      subst hik
      rw [Nat.zero_add, stuckRowCond_eval c y k r hr0 (by omega) hilen] at hpk
      exact of_decide_eq_true hpk
    · intro hlt
      refine ⟨i, hgetR, ?_⟩
      rw [Nat.zero_add, stuckRowCond_eval c y i r hr0 (by omega) hilen]
      exact decide_eq_true hlt
  · unfold stuckCols
    rw [mem_filterIdx]
    constructor
    · rintro ⟨k, hk, hpk⟩
      have hjk : k = j := nodup_get?_inj hndC hk hgetC
      subst hjk
      rw [Nat.zero_add, stuckColCond_eval c x k q hq0 (by omega) hjlen] at hpk
      exact of_decide_eq_true hpk
    · intro hlt
      refine ⟨j, hgetC, ?_⟩
      rw [Nat.zero_add, stuckColCond_eval c x j q hq0 (by omega) hjlen]
      exact decide_eq_true hlt

theorem rowOffsets_cfgSticky : rowOffsets cfgSticky = [0, 40] := by
  have hrange : List.range 1 = [0] := by decide
  have hsz : rowHeights cfgSticky = [40, 40] := by decide
  simp [rowOffsets, hsz, calculateOffsets, hrange]

theorem stickyRowOffsets_cfgSticky : stickyRowOffsets cfgSticky = [0] := by
  have hmap : (sortedStickyRows cfgSticky).map
      (fun r => jsGetD (rowHeights cfgSticky) r 0) = [40] := by decide
  unfold stickyRowOffsets
  rw [hmap]
  simp [calculateOffsets]

theorem stuckRowCond_cfgSticky : stuckRowCond cfgSticky 0 0 0 = false := by
  have h1 : jsGet (rowOffsets cfgSticky) 0 = some 0 := by
    rw [rowOffsets_cfgSticky]
    decide
  have h2 : jsGet (stickyRowOffsets cfgSticky) 0 = some 0 := by
    rw [stickyRowOffsets_cfgSticky]
    decide
  unfold stuckRowCond
  simp only [Nat.cast_zero]
  rw [h1, h2]
  norm_num

/-- C5 as stated is refuted: with two 40px rows and sticky row 0, at
offset `y = 0` the threshold `rowOffsets[0] - stickyRowOffsets[0] = 0`
satisfies the claimed membership test `offset.y ≥ threshold`, yet the
code's strict comparison leaves row 0 out of the stuck set. -/
theorem claimC5_counterexample :
    sortedStickyRows cfgSticky = [0] ∧
    (rowOffsets cfgSticky).getD 0 0 - (stickyRowOffsets cfgSticky).getD 0 0 ≤ 0 ∧
    (0 : ℤ) ∉ stuckRows cfgSticky 0 := by
  refine ⟨by decide, ?_, ?_⟩
  · rw [rowOffsets_cfgSticky, stickyRowOffsets_cfgSticky]
    norm_num
  · have hsorted : sortedStickyRows cfgSticky = [0] := by decide
    unfold stuckRows
    rw [hsorted]
    unfold filterIdx
    rw [stuckRowCond_cfgSticky]
    simp [filterIdx]

/-- Witness for C5 (amended): with four 40px rows, sticky rows `[3, 1]`
(sorted to `[1, 3]`) and offset `y = 50`, row 1 at sort position 0 has
threshold `40 - 0 = 40 < 50` and is stuck; the sticky column 0 at
`x = 0` has threshold `0` and is not stuck. -/
theorem claimC5_witness :
    ((1 : ℤ) ∈ stuckRows cfgStickyPair 50 ↔
      (rowOffsets cfgStickyPair).getD (1 : ℤ).toNat 0
        - (stickyRowOffsets cfgStickyPair).getD 0 0 < 50) ∧
    ((0 : ℤ) ∈ stuckCols cfgStickyPair 0 ↔
      (colOffsets cfgStickyPair).getD (0 : ℤ).toNat 0
        - (stickyColOffsets cfgStickyPair).getD 0 0 < 0) :=
  claimC5 cfgStickyPair 50 0 0 0 1 0
    (by decide) (by decide) (by decide) (by decide)
    (by decide) (by decide) (by decide) (by decide)

theorem setOffset_true_state {α : Type} (c : GridConfig α) (s : GridState) (off : Offset)
    (hne : s.offset ≠ off) :
    (setOffset c s off false).1
      = { offset := off
          renderWindow := resolveWindow c s.windowSize off s.renderWindow
          windowSize := s.windowSize } := by
  obtain ⟨ox, oy⟩ := off
  unfold setOffset
  split
  · rfl
  next hcond =>
    push_neg at hcond
    refine absurd ?_ hne
    calc s.offset = ⟨s.offset.x, s.offset.y⟩ := rfl
      _ = ⟨ox, oy⟩ := by rw [hcond.2.1, hcond.2.2]

theorem scroll_window_eq {α : Type} (c : GridConfig α) (s : GridState) (deltaX deltaY : ℚ)
    (hfit : ¬((totalSize c).width ≤ s.windowSize.width ∧
      (totalSize c).height ≤ s.windowSize.height))
    (hne : s.offset ≠
      ⟨min (maxOffset c s.windowSize).x
          (max 0 (s.offset.x + (if s.windowSize.width = 0 then 0 else deltaX) * c.scrollSpeed)),
        min (maxOffset c s.windowSize).y
          (max 0 (s.offset.y + (if s.windowSize.height = 0 then 0 else deltaY) * c.scrollSpeed))⟩) :
    (scroll c s deltaX deltaY).1.renderWindow
      = resolveWindow c s.windowSize
          ⟨min (maxOffset c s.windowSize).x
              (max 0 (s.offset.x +
                (if s.windowSize.width = 0 then 0 else deltaX) * c.scrollSpeed)),
            min (maxOffset c s.windowSize).y
              (max 0 (s.offset.y +
                (if s.windowSize.height = 0 then 0 else deltaY) * c.scrollSpeed))⟩
          s.renderWindow := by
  unfold scroll
  rw [if_neg hfit]
  rw [setOffset_true_state c s _ hne]

theorem rowOffsets_cfgWide : rowOffsets cfgWide = [0] := by
  have hsz : rowHeights cfgWide = [80] := by decide
  simp [rowOffsets, hsz, calculateOffsets]

theorem colOffsets_cfgWide :
    colOffsets cfgWide = [0, 80, 160, 240, 320, 400, 480, 560, 640, 720] := by
  have hrange : List.range 10 = [0, 1, 2, 3, 4, 5, 6, 7, 8, 9] := by decide
  have hsz : colWidths cfgWide = List.replicate 10 80 := by decide
  rw [colOffsets, hsz, calculateOffsets_eq]
  simp only [List.length_replicate, hrange, List.map_cons, List.map_nil,
    List.take_replicate, List.sum_replicate, smul_eq_mul]
  norm_num

theorem totalSize_cfgWide : totalSize cfgWide = ⟨800, 80⟩ := by
  have h1 : numCols cfgWide = 10 := by decide
  have h2 : numRows cfgWide = 1 := by decide
  have h3 : rowHeights cfgWide = [80] := by decide
  have h4 : colWidths cfgWide = List.replicate 10 80 := by decide
  simp [totalSize, h1, h2, h3, h4, rowOffsets_cfgWide, colOffsets_cfgWide]
  norm_num

theorem visibleToRow_cfgWide : visibleToRow cfgWide ⟨100, 100⟩ (-20) = 1 := by
  have hn : numRows cfgWide = 1 := by decide
  unfold visibleToRow visibleToList
  rw [rowOffsets_cfgWide, hn]
  norm_num [findIndexGE]

theorem visibleToCol_cfgWide : visibleToCol cfgWide ⟨100, 100⟩ 0 = 2 := by
  have hn : numCols cfgWide = 10 := by decide
  unfold visibleToCol visibleToList
  rw [colOffsets_cfgWide, hn]
  norm_num [findIndexGE]

theorem resolveWindow_cfgWide :
    resolveWindow cfgWide ⟨100, 100⟩ ⟨0, -20⟩ ⟨0, 0, 0, 0⟩ = ⟨0, 1, 0, 7⟩ := by
  have hvfR : visibleFromRow cfgWide (-20) = -1 := by
    unfold visibleFromRow
    rw [rowOffsets_cfgWide]
    decide
  have hvfC : visibleFromCol cfgWide 0 = 0 := by
    unfold visibleFromCol
    rw [colOffsets_cfgWide]
    decide
  unfold resolveWindow
  dsimp only
  rw [hvfR, hvfC, visibleToRow_cfgWide, visibleToCol_cfgWide,
    rowOffsets_cfgWide, colOffsets_cfgWide]
  decide

/-- C6 is refuted by the code (code bug): with one 80px row, ten 80px
columns and a 100 by 100 viewport, the grid fits vertically but not
horizontally, so `scroll(0, 5)` is accepted and clamps the y offset to
`maxOffset.y = -20`; the frame callback then computes
`translateY = -offset.y + rowOffsets[fromRow] = 20 > 0`, the condition
the source itself flags with its `console.log('ProblemY')` diagnostic. -/
theorem claimC6_codebug :
    (scroll cfgWide (initState ⟨0, 0⟩ ⟨100, 100⟩) 0 5).2 = true ∧
    (scroll cfgWide (initState ⟨0, 0⟩ ⟨100, 100⟩) 0 5).1.offset = ⟨0, -20⟩ ∧
    (scroll cfgWide (initState ⟨0, 0⟩ ⟨100, 100⟩) 0 5).1.renderWindow = ⟨0, 1, 0, 7⟩ ∧
    translateY cfgWide ⟨0, -20⟩ ⟨0, 1, 0, 7⟩ = 20 ∧
    ¬(translateY cfgWide ⟨0, -20⟩ ⟨0, 1, 0, 7⟩ ≤ 0) := by
  have hsp : cfgWide.scrollSpeed = 1 := rfl
  have hfit : ¬((totalSize cfgWide).width ≤ (initState ⟨0, 0⟩ ⟨100, 100⟩).windowSize.width ∧
      (totalSize cfgWide).height ≤ (initState ⟨0, 0⟩ ⟨100, 100⟩).windowSize.height) := by
    rw [totalSize_cfgWide]
    norm_num [initState]
  have hcand :
      (⟨min (maxOffset cfgWide (initState ⟨0, 0⟩ ⟨100, 100⟩).windowSize).x
          (max 0 ((initState ⟨0, 0⟩ ⟨100, 100⟩).offset.x +
            (if (initState ⟨0, 0⟩ ⟨100, 100⟩).windowSize.width = 0 then 0 else 0) *
              cfgWide.scrollSpeed)),
        min (maxOffset cfgWide (initState ⟨0, 0⟩ ⟨100, 100⟩).windowSize).y
          (max 0 ((initState ⟨0, 0⟩ ⟨100, 100⟩).offset.y +
            (if (initState ⟨0, 0⟩ ⟨100, 100⟩).windowSize.height = 0 then 0 else 5) *
              cfgWide.scrollSpeed))⟩ : Offset) = ⟨0, -20⟩ := by
    norm_num [initState, maxOffset, totalSize_cfgWide, min_def, max_def, hsp]
  have hne : (initState ⟨0, 0⟩ ⟨100, 100⟩).offset ≠
      ⟨min (maxOffset cfgWide (initState ⟨0, 0⟩ ⟨100, 100⟩).windowSize).x
          (max 0 ((initState ⟨0, 0⟩ ⟨100, 100⟩).offset.x +
            (if (initState ⟨0, 0⟩ ⟨100, 100⟩).windowSize.width = 0 then 0 else 0) *
              cfgWide.scrollSpeed)),
        min (maxOffset cfgWide (initState ⟨0, 0⟩ ⟨100, 100⟩).windowSize).y
          (max 0 ((initState ⟨0, 0⟩ ⟨100, 100⟩).offset.y +
            (if (initState ⟨0, 0⟩ ⟨100, 100⟩).windowSize.height = 0 then 0 else 5) *
              cfgWide.scrollSpeed))⟩ := by
    rw [hcand]
    decide
  refine ⟨scroll_snd_true cfgWide _ 0 5 hfit hne, ?_, ?_, ?_, ?_⟩
  · rw [scroll_offset_eq cfgWide _ 0 5 hfit]
    exact hcand
  · rw [scroll_window_eq cfgWide _ 0 5 hfit hne, hcand]
    exact resolveWindow_cfgWide
  · unfold translateY
    rw [rowOffsets_cfgWide]
    have hj : jsGetD [(0 : ℚ)] 0 0 = 0 := by decide
    rw [hj]
    norm_num
  · unfold translateY
    rw [rowOffsets_cfgWide]
    have hj : jsGetD [(0 : ℚ)] 0 0 = 0 := by decide
    rw [hj]
    norm_num

theorem calculateSizes_zero (itemSize : ItemSize) : calculateSizes itemSize 0 = [] := by
  cases itemSize <;> simp [calculateSizes]

/-- C8: with `rows = []` (zero rows, hence zero columns) the engine is in
a valid state: the offset tables are empty, and any sequence of scroll
calls leaves the state — offset `{0, 0}` and render window
`{0, 0, 0, 0}` — exactly unchanged, for any size specs, sticky lists,
scroll speed, batch size and nonnegative viewport. -/
theorem claimC8 (rh cw : ItemSize) (sr sc : List ℤ) (sp : ℚ) (b : ℤ) (ws : Size2)
    (ds : List (ℚ × ℚ)) (hw : 0 ≤ ws.width) (hh : 0 ≤ ws.height) :
    rowOffsets (⟨[], rh, cw, sr, sc, sp, b⟩ : GridConfig Unit) = [] ∧
    colOffsets (⟨[], rh, cw, sr, sc, sp, b⟩ : GridConfig Unit) = [] ∧
    scrollMany (⟨[], rh, cw, sr, sc, sp, b⟩ : GridConfig Unit) (initState ⟨0, 0⟩ ws) ds
      = initState ⟨0, 0⟩ ws ∧
    (scrollMany (⟨[], rh, cw, sr, sc, sp, b⟩ : GridConfig Unit)
      (initState ⟨0, 0⟩ ws) ds).offset = ⟨0, 0⟩ ∧
    (scrollMany (⟨[], rh, cw, sr, sc, sp, b⟩ : GridConfig Unit)
      (initState ⟨0, 0⟩ ws) ds).renderWindow = ⟨0, 0, 0, 0⟩ := by
  set c : GridConfig Unit := ⟨[], rh, cw, sr, sc, sp, b⟩ with hc
  have hro : rowOffsets c = [] := by
    unfold rowOffsets rowHeights
    rw [show numRows c = 0 from rfl, calculateSizes_zero]
    simp [calculateOffsets]
  have hco : colOffsets c = [] := by
    unfold colOffsets colWidths
    rw [show numCols c = 0 from rfl, calculateSizes_zero]
    simp [calculateOffsets]
  have hts : totalSize c = ⟨0, 0⟩ := rfl
  have hstep : ∀ (s : GridState), s.windowSize = ws →
      ∀ d : ℚ × ℚ, scroll c s d.1 d.2 = (s, false) := by
    intro s hs d
    refine scroll_fits c s d.1 d.2 ?_
    rw [hts, hs]
    exact ⟨hw, hh⟩
  have hmany : scrollMany c (initState ⟨0, 0⟩ ws) ds = initState ⟨0, 0⟩ ws := by
    induction ds with
    | nil => rfl
    | cons d rest ih =>
        unfold scrollMany
        rw [List.foldl_cons]
        have hone : (scroll c (initState ⟨0, 0⟩ ws) d.1 d.2).1 = initState ⟨0, 0⟩ ws := by
          rw [hstep (initState ⟨0, 0⟩ ws) rfl d]
        rw [hone]
        exact ih
  exact ⟨hro, hco, hmany, by rw [hmany]; rfl, by rw [hmany]; rfl⟩

/-- Witness for C8: a 100 by 50 viewport over the empty grid with two
scroll deltas leaves everything unchanged. -/
theorem claimC8_witness :
    rowOffsets (⟨[], .fixed 40, .fixed 80, [], [], 1, 5⟩ : GridConfig Unit) = [] ∧
    colOffsets (⟨[], .fixed 40, .fixed 80, [], [], 1, 5⟩ : GridConfig Unit) = [] ∧
    scrollMany (⟨[], .fixed 40, .fixed 80, [], [], 1, 5⟩ : GridConfig Unit)
      (initState ⟨0, 0⟩ ⟨100, 50⟩) [(3, 4), (-5, 6)] = initState ⟨0, 0⟩ ⟨100, 50⟩ ∧
    (scrollMany (⟨[], .fixed 40, .fixed 80, [], [], 1, 5⟩ : GridConfig Unit)
      (initState ⟨0, 0⟩ ⟨100, 50⟩) [(3, 4), (-5, 6)]).offset = ⟨0, 0⟩ ∧
    (scrollMany (⟨[], .fixed 40, .fixed 80, [], [], 1, 5⟩ : GridConfig Unit)
      (initState ⟨0, 0⟩ ⟨100, 50⟩) [(3, 4), (-5, 6)]).renderWindow = ⟨0, 0, 0, 0⟩ :=
  claimC8 (.fixed 40) (.fixed 80) [] [] 1 5 ⟨100, 50⟩ [(3, 4), (-5, 6)]
    (by decide) (by decide)

/-- C9: `calculateOffsets` returns a list of the same length as its input
(empty for empty input), whose entry at every in-range index `i` is the
sum of the first `i` sizes; in particular the first entry of a nonempty
result is 0. -/
theorem claimC9 (sizes : List ℚ) (i : ℕ) :
    (calculateOffsets sizes).length = sizes.length ∧
    (calculateOffsets sizes).get? i
      = (if i < sizes.length then some ((sizes.take i).sum) else none) ∧
    (calculateOffsets sizes).get? 0
      = (if 0 < sizes.length then some 0 else none) := by
  refine ⟨calculateOffsets_length sizes, calculateOffsets_get? sizes i, ?_⟩
  rw [calculateOffsets_get?]
  simp

theorem decayTicks_succ (fuel : ℕ) (sx sy : ℚ) :
    decayTicks (fuel + 1) sx sy
      = (sx * 16, sy * 16) ::
        (if |sx * (95 / 100)| + |sy * (95 / 100)| < 1 / 100 then []
         else decayTicks fuel (sx * (95 / 100)) (sy * (95 / 100))) := by
  by_cases hstop : |sx * (95 / 100)| + |sy * (95 / 100)| < 1 / 100
  · simp only [decayTicks, if_pos hstop]
  · simp only [decayTicks, if_neg hstop]

theorem decayTicks_ratio :
    ∀ (fuel : ℕ) (sx sy : ℚ) (k : ℕ) (e d : ℚ × ℚ),
      (decayTicks fuel sx sy).get? k = some e →
      (decayTicks fuel sx sy).get? (k + 1) = some d →
      d = (e.1 * (95 / 100), e.2 * (95 / 100)) := by
  intro fuel
  induction fuel with
  | zero =>
      intro sx sy k e d he hd
      simp [decayTicks] at he
  | succ fuel ih =>
      intro sx sy k e d he hd
      rw [decayTicks_succ] at he hd
      by_cases hstop : |sx * (95 / 100)| + |sy * (95 / 100)| < 1 / 100
      · rw [if_pos hstop] at he hd
        cases k with
        | zero => simp at hd
        | succ k => simp at he
      · rw [if_neg hstop] at he hd
        cases k with
        | zero =>
            have he2 : e = (sx * 16, sy * 16) := by
              have := he
              simp at this
              exact this.symm
            have hd2 : (decayTicks fuel (sx * (95 / 100)) (sy * (95 / 100))).get? 0
                = some d := by simpa using hd
            cases fuel with
            | zero => simp [decayTicks] at hd2
            | succ fuel2 =>
                rw [decayTicks_succ] at hd2
                have hd3 : d = (sx * (95 / 100) * 16, sy * (95 / 100) * 16) := by
                  have := hd2
                  simp at this
                  exact this.symm
                subst he2
                subst hd3
                simp only [Prod.mk.injEq]
                refine ⟨?_, ?_⟩ <;> dsimp only <;> ring
        | succ k =>
            have he2 : (decayTicks fuel (sx * (95 / 100)) (sy * (95 / 100))).get? k
                = some e := by simpa using he
            have hd2 : (decayTicks fuel (sx * (95 / 100)) (sy * (95 / 100))).get? (k + 1)
                = some d := by simpa using hd
            exact ih _ _ k e d he2 hd2

theorem decayTicks_length :
    ∀ (N : ℕ), 1 ≤ N → ∀ (fuel : ℕ) (sx sy : ℚ), N ≤ fuel →
      |sx * (95 / 100) ^ N| + |sy * (95 / 100) ^ N| < 1 / 100 →
      (∀ m : ℕ, 1 ≤ m → m < N →
        ¬(|sx * (95 / 100) ^ m| + |sy * (95 / 100) ^ m| < 1 / 100)) →
      (decayTicks fuel sx sy).length = N := by
  intro N
  induction N with
  | zero => intro h; omega
  | succ N ihN =>
      intro _ fuel sx sy hfuel hstop hrun
      obtain ⟨f, rfl⟩ : ∃ f, fuel = f + 1 := ⟨fuel - 1, by omega⟩
      rw [decayTicks_succ]
      rcases Nat.eq_zero_or_pos N with hN0 | hN1
      · subst hN0
        have hc : |sx * (95 / 100)| + |sy * (95 / 100)| < 1 / 100 := by
          have h1 : sx * (95 / 100) ^ (0 + 1) = sx * (95 / 100) := by ring
          have h2 : sy * (95 / 100) ^ (0 + 1) = sy * (95 / 100) := by ring
          rw [h1, h2] at hstop
          exact hstop
        rw [if_pos hc]
        rfl
      · have hc : ¬(|sx * (95 / 100)| + |sy * (95 / 100)| < 1 / 100) := by
          have := hrun 1 (by omega) (by omega)
          have h1 : sx * (95 / 100) ^ 1 = sx * (95 / 100) := by ring
          have h2 : sy * (95 / 100) ^ 1 = sy * (95 / 100) := by ring
          rw [h1, h2] at this
          exact this
        rw [if_neg hc]
        simp only [List.length_cons]
        have hstop2 : |sx * (95 / 100) * (95 / 100) ^ N|
            + |sy * (95 / 100) * (95 / 100) ^ N| < 1 / 100 := by
          have h1 : sx * (95 / 100) * (95 / 100) ^ N = sx * (95 / 100) ^ (N + 1) := by ring
          have h2 : sy * (95 / 100) * (95 / 100) ^ N = sy * (95 / 100) ^ (N + 1) := by ring
          rw [h1, h2]
          exact hstop
        have hrun2 : ∀ m : ℕ, 1 ≤ m → m < N →
            ¬(|sx * (95 / 100) * (95 / 100) ^ m|
              + |sy * (95 / 100) * (95 / 100) ^ m| < 1 / 100) := by
          intro m hm1 hmN
          have h1 : sx * (95 / 100) * (95 / 100) ^ m = sx * (95 / 100) ^ (m + 1) := by ring
          have h2 : sy * (95 / 100) * (95 / 100) ^ m = sy * (95 / 100) ^ (m + 1) := by ring
          rw [h1, h2]
          exact hrun (m + 1) (by omega) (by omega)
        rw [ihN hN1 f (sx * (95 / 100)) (sy * (95 / 100)) (by omega) hstop2 hrun2]

/-- C7: for the gesture start(t=0, x=100), move(t=16, x=80), end(t=32):
the move displacement is 20 on x, the release speed is
`20 / (32 - 16) = 5/4` per millisecond on x, the first decay tick applies
delta `(5/4)*16 = 20` on x, every subsequent tick applies the previous
delta times `0.95` (so 20, 19, 18.05, …), and the decay loop runs for
exactly 95 ticks, stopping at the first tick after which the combined
absolute speed on both axes drops below `0.01`. -/
theorem claimC7 :
    (touchMove (touchStart 0 100 0) 16 80 0).2 = (20, 0) ∧
    touchEndSpeed (touchMove (touchStart 0 100 0) 16 80 0).1 32 = (5 / 4, 0) ∧
    (decayTicks 200 (5 / 4) 0).head? = some (20, 0) ∧
    (decayTicks 200 (5 / 4) 0).get? 1 = some (19, 0) ∧
    (decayTicks 200 (5 / 4) 0).get? 2 = some (361 / 20, 0) ∧
    (∀ (k : ℕ) (e d : ℚ × ℚ), (decayTicks 200 (5 / 4) 0).get? k = some e →
      (decayTicks 200 (5 / 4) 0).get? (k + 1) = some d →
      d = (e.1 * (95 / 100), e.2 * (95 / 100))) ∧
    (decayTicks 200 (5 / 4) 0).length = 95 ∧
    |(5 / 4 : ℚ) * (95 / 100) ^ 95| + |(0 : ℚ) * (95 / 100) ^ 95| < 1 / 100 ∧
    ¬(|(5 / 4 : ℚ) * (95 / 100) ^ 94| + |(0 : ℚ) * (95 / 100) ^ 94| < 1 / 100) := by
  have gtwo : ∀ (a b : ℚ × ℚ) (l : List (ℚ × ℚ)), (a :: b :: l).get? 1 = some b :=
    fun a b l => rfl
  have gthree : ∀ (a b ch : ℚ × ℚ) (l : List (ℚ × ℚ)), (a :: b :: ch :: l).get? 2 = some ch :=
    fun a b ch l => rfl
  have c1 : ¬(|(5 / 4 : ℚ) * (95 / 100)| + |(0 : ℚ) * (95 / 100)| < 1 / 100) := by
    simp only [zero_mul, abs_zero, add_zero]
    rw [abs_of_nonneg (by norm_num : (0 : ℚ) ≤ 5 / 4 * (95 / 100))]
    norm_num
  have c2 : ¬(|(5 / 4 : ℚ) * (95 / 100) * (95 / 100)| +
      |(0 : ℚ) * (95 / 100) * (95 / 100)| < 1 / 100) := by
    simp only [zero_mul, abs_zero, add_zero]
    rw [abs_of_nonneg (by norm_num : (0 : ℚ) ≤ 5 / 4 * (95 / 100) * (95 / 100))]
    norm_num
  have c3 : ¬(|(5 / 4 : ℚ) * (95 / 100) * (95 / 100) * (95 / 100)| +
      |(0 : ℚ) * (95 / 100) * (95 / 100) * (95 / 100)| < 1 / 100) := by
    simp only [zero_mul, abs_zero, add_zero]
    rw [abs_of_nonneg
      (by norm_num : (0 : ℚ) ≤ 5 / 4 * (95 / 100) * (95 / 100) * (95 / 100))]
    norm_num
  have hlist : decayTicks 200 (5 / 4) 0
      = ((5 / 4 : ℚ) * 16, (0 : ℚ) * 16) ::
        ((5 / 4 : ℚ) * (95 / 100) * 16, (0 : ℚ) * (95 / 100) * 16) ::
        ((5 / 4 : ℚ) * (95 / 100) * (95 / 100) * 16,
          (0 : ℚ) * (95 / 100) * (95 / 100) * 16) ::
        decayTicks 197 ((5 / 4 : ℚ) * (95 / 100) * (95 / 100) * (95 / 100))
          ((0 : ℚ) * (95 / 100) * (95 / 100) * (95 / 100)) := by
    rw [show (200 : ℕ) = 199 + 1 by norm_num, decayTicks_succ, if_neg c1,
      show (199 : ℕ) = 198 + 1 by norm_num, decayTicks_succ, if_neg c2,
      show (198 : ℕ) = 197 + 1 by norm_num, decayTicks_succ, if_neg c3]
  have hstop : |(5 / 4 : ℚ) * (95 / 100) ^ 95| + |(0 : ℚ) * (95 / 100) ^ 95| < 1 / 100 := by
    simp only [zero_mul, abs_zero, add_zero]
    rw [abs_of_nonneg (by positivity)]
    norm_num
  have hrun : ∀ m : ℕ, 1 ≤ m → m < 95 →
      ¬(|(5 / 4 : ℚ) * (95 / 100) ^ m| + |(0 : ℚ) * (95 / 100) ^ m| < 1 / 100) := by
    intro m hm1 hm2
    simp only [zero_mul, abs_zero, add_zero]
    rw [abs_of_nonneg (by positivity), not_lt]
    have hq : ((95 : ℚ) / 100) ^ 94 ≤ (95 / 100) ^ m :=
      pow_le_pow_of_le_one (by norm_num) (by norm_num) (by omega)
    have h94 : (1 : ℚ) / 100 ≤ 5 / 4 * (95 / 100) ^ 94 := by norm_num
    have hmul := mul_le_mul_of_nonneg_left hq (by norm_num : (0 : ℚ) ≤ 5 / 4)
    linarith
  refine ⟨?_, ?_, ?_, ?_, ?_, ?_, ?_, hstop, by
    simp only [zero_mul, abs_zero, add_zero]
    rw [abs_of_nonneg (by positivity), not_lt]
    norm_num⟩
  · unfold touchStart touchMove
    norm_num
  · unfold touchStart touchMove touchEndSpeed
    norm_num
  · rw [hlist]
    simp only [List.head?_cons]
    norm_num
  · rw [hlist, gtwo]
    norm_num
  · rw [hlist, gthree]
    norm_num
  · intro k e d he hd
    exact decayTicks_ratio 200 (5 / 4) 0 k e d he hd
  · rw [decayTicks_length 95 (by omega) 200 (5 / 4) 0 (by omega) hstop hrun]

end Window2
